import Mathlib

/-!
Verification development for the `novembro` warrant-processing repository.

The Python sources under `src/scr/` are shallowly embedded below:

* pure functions become Lean functions over `String` / `List Char`,
  with Python `float` scores modelled as `ℚ` (and, for the TF-IDF
  cosine scores, as `ℝ`, since idf weights involve logarithms);
* calls that leave the repository (LLM clients, file loading, DI4
  lookups, Python `set` iteration order) are modelled as explicit
  input parameters of the embedded functions; fallible calls are
  modelled with `Except String`;
* Python regular-expression searches are embedded as hand-written
  scanners specialised to the concrete patterns of the source.

Field and function names follow the Python sources
(`datamanagement.py`, `orquestrador.py`, `main.py`,
`extract_subsidios.py`, `extract_envolvidos.py`, `periodo.py`).
-/

/- ### Basic string helpers shared by the embedded regex scanners -/

/-- Lower-casing of a character as Python `str.lower()` /
`re.IGNORECASE` behaves on the characters occurring in the
patterns of `datamanagement.py` (ASCII letters plus the accented
letters of the Portuguese marker tokens). -/
def pyLower (c : Char) : Char :=
  if 'A' ≤ c ∧ c ≤ 'Z' then Char.ofNat (c.toNat + 32)
  else if c = 'Á' then 'á'
  else if c = 'Ã' then 'ã'
  else if c = 'Â' then 'â'
  else if c = 'É' then 'é'
  else if c = 'Ê' then 'ê'
  else if c = 'Í' then 'í'
  else if c = 'Ó' then 'ó'
  else if c = 'Õ' then 'õ'
  else if c = 'Ú' then 'ú'
  else if c = 'Ç' then 'ç'
  else c

/-- Upper-casing of a character as Python `str.upper()` behaves on the
characters relevant to the embedded sources. -/
def pyUpper (c : Char) : Char :=
  if 'a' ≤ c ∧ c ≤ 'z' then Char.ofNat (c.toNat - 32)
  else if c = 'á' then 'Á'
  else if c = 'ã' then 'Ã'
  else if c = 'â' then 'Â'
  else if c = 'é' then 'É'
  else if c = 'ê' then 'Ê'
  else if c = 'í' then 'Í'
  else if c = 'ó' then 'Ó'
  else if c = 'õ' then 'Õ'
  else if c = 'ú' then 'Ú'
  else if c = 'ç' then 'Ç'
  else c

def lowerStr (s : List Char) : List Char := s.map pyLower

def upperStr (s : List Char) : List Char := s.map pyUpper

/-- `tok` occurs at the head of `s`. -/
def tokAt (tok s : List Char) : Bool :=
  s.take tok.length == tok

/-- `tok` occurs somewhere in `s` (Python `re.search` of a literal,
or `tok in s`). -/
def containsTok (s tok : List Char) : Bool :=
  (List.range (s.length + 1)).any fun i => tokAt tok (s.drop i)

/-- Case-insensitive containment of one of the `toks` in `s`
(Python `re.search(r'(tok1|tok2|...)', s, re.IGNORECASE)`). -/
def containsAnyCI (s : List Char) (toks : List (List Char)) : Bool :=
  toks.any fun tok => containsTok (lowerStr s) (lowerStr tok)

def isDigitCh (c : Char) : Bool := '0' ≤ c ∧ c ≤ '9'

/-- Python `str.split(sep)` for a non-empty separator: split on each
leftmost occurrence, left to right. `fuel` bounds the recursion by the
text length. -/
def splitOnList (sep : List Char) : ℕ → List Char → List (List Char)
  | 0, s => [s]
  | fuel + 1, s =>
    match (List.range (s.length + 1)).find? (fun i => tokAt sep (s.drop i)) with
    | none => [s]
    | some i => s.take i :: splitOnList sep fuel (s.drop (i + sep.length))

/-- `str.split(sep)` on strings. -/
def pySplit (text sep : String) : List String :=
  (splitOnList sep.toList (text.toList.length + 1) text.toList).map String.mk

/-- Match `n` digits at the head of `s`, returning the rest. -/
def takeDigits : Nat → List Char → Option (List Char)
  | 0, s => some s
  | n + 1, [] => if n = 0 then none else none
  | n + 1, c :: s => if isDigitCh c then takeDigits n s else none

/-- Match an optional literal character (the regex `x?` where the
continuation starts with a digit, so the greedy option never needs
backtracking in the patterns below). -/
def optCh (c : Char) (s : List Char) : List Char :=
  match s with
  | [] => []
  | d :: rest => if d = c then rest else s

/-- Match the CPF digit pattern `\d{3}\.?\d{3}\.?\d{3}-?\d{2}` at the
head of `s` (from the `patterns` table of
`datamanagement.analyze_input_structure`). -/
def cpfDigitsAt (s : List Char) : Option (List Char) := do
  let s ← takeDigits 3 s
  let s := optCh '.' s
  let s ← takeDigits 3 s
  let s := optCh '.' s
  let s ← takeDigits 3 s
  let s := optCh '-' s
  takeDigits 2 s

/-- Match the CNPJ digit pattern `\d{2}\.?\d{3}\.?\d{3}/?\d{4}-?\d{2}`
at the head of `s`. -/
def cnpjDigitsAt (s : List Char) : Option (List Char) := do
  let s ← takeDigits 2 s
  let s := optCh '.' s
  let s ← takeDigits 3 s
  let s := optCh '.' s
  let s ← takeDigits 3 s
  let s := optCh '/' s
  let s ← takeDigits 4 s
  let s := optCh '-' s
  takeDigits 2 s

/-- Match the process-number pattern
`\d{7}-\d{2}\.\d{4}\.\d\.\d{2}\.\d{4}` at the head of `s`. -/
def processoAt (s : List Char) : Option (List Char) := do
  let s ← takeDigits 7 s
  match s with
  | '-' :: s => do
    let s ← takeDigits 2 s
    match s with
    | '.' :: s => do
      let s ← takeDigits 4 s
      match s with
      | '.' :: s => do
        let s ← takeDigits 1 s
        match s with
        | '.' :: s => do
          let s ← takeDigits 2 s
          match s with
          | '.' :: s => takeDigits 4 s
          | _ => none
        | _ => none
      | _ => none
    | _ => none
  | _ => none

/-- `re.search` existence of a head-matcher anywhere in `s`. -/
def searchSome (pat : List Char → Option (List Char)) (s : List Char) : Bool :=
  (List.range (s.length + 1)).any fun i => (pat (s.drop i)).isSome

/-- Existence of the OCR-delimiter pattern `<<OCR>>.*?<<OCR>>`
(`re.DOTALL`): two occurrences of the 7-character delimiter at least
7 positions apart. -/
def hasOcrPair (s : List Char) : Bool :=
  (List.range (s.length + 1)).any fun i =>
    tokAt "<<OCR>>".toList (s.drop i) ∧
      (List.range (s.length + 1)).any fun j =>
        i + 7 ≤ j ∧ tokAt "<<OCR>>".toList (s.drop j)

/- ### `datamanagement.py` — structural classifier -/

/-- The marker-token families of the `patterns` table in
`analyze_input_structure`. -/
def email_headers_toks : List (List Char) :=
  ["From:".toList, "Para:".toList, "Subject:".toList, "Assunto:".toList,
   "De:".toList, "Date:".toList, "Data:".toList]

def oficio_markers_toks : List (List Char) :=
  ["PODER JUDICIÁRIO".toList, "OFÍCIO".toList, "MANDADO".toList,
   "VARA".toList, "COMARCA".toList, "JUIZ".toList]

def reiteracao_toks : List (List Char) :=
  ["REITER".toList, "REITERA".toList, "REITERAÇÃO".toList, "URGENTE".toList,
   "PRAZO VENCIDO".toList, "NÃO ATENDIDO".toList]

def complemento_toks : List (List Char) :=
  ["COMPLEMENTO".toList, "COMPLEMENTAR".toList, "ADICIONAL".toList,
   "INFORMAÇÕES ADICIONAIS".toList, "PARCIALMENTE ATENDIDO".toList]

def hasEmailHeaders (s : List Char) : Bool := containsAnyCI s email_headers_toks

def hasOficioMarkers (s : List Char) : Bool := containsAnyCI s oficio_markers_toks

def hasReiteracao (s : List Char) : Bool := containsAnyCI s reiteracao_toks

def hasComplemento (s : List Char) : Bool := containsAnyCI s complemento_toks

def hasProcesso (s : List Char) : Bool := searchSome processoAt s

def hasCpf (s : List Char) : Bool := searchSome cpfDigitsAt s

def hasCnpj (s : List Char) : Bool := searchSome cnpjDigitsAt s

/-- `datamanagement.InputClassification` (pydantic model). The Python
`Literal` string fields are kept as `String`s with the same values;
`confidence_score` (a float) is modelled as `ℚ`. -/
structure InputClassification where
  tipo_conteudo : String
  tem_ocr_oficio : Bool
  tem_marcador_ocr : Bool
  tem_numero_processo : Bool
  tem_dados_investigados : Bool
  tipo_oficio : String
  confidence_score : ℚ
  fragmentos_identificados : List String
  deriving Repr, DecidableEq

def boolNat (b : Bool) : ℕ := if b then 1 else 0

/-- The `fragmentos_identificados` list accumulated by
`analyze_input_structure`, in the source's append order. -/
def fragmentos_of (s : List Char) : List String :=
  (if hasOcrPair s then ["ocr_markers"] else []) ++
    (if hasEmailHeaders s then ["email_headers"] else []) ++
    (if hasOficioMarkers s then ["oficio_content"] else []) ++
    (if hasProcesso s then ["process_number"] else []) ++
    (if hasCpf s || hasCnpj s then ["investigated_parties"] else [])

/-- The `identified_elements` sum of `analyze_input_structure`
(five indicator summands, one per classification flag plus the
non-emptiness of the fragment list). -/
def identified_elements_of (s : List Char) : ℕ :=
  boolNat (hasOficioMarkers s) + boolNat (hasOcrPair s) + boolNat (hasProcesso s) +
    boolNat (hasCpf s || hasCnpj s) + boolNat (decide ((fragmentos_of s).length > 0))

/-- `datamanagement.analyze_input_structure`: scans the input text with
the pattern table and fills the classification dictionary in the
source's statement order. -/
def analyze_input_structure (text : String) : InputClassification :=
  let s := text.toList
  let tem_marcador_ocr := hasOcrPair s
  let email := hasEmailHeaders s
  let tipo_conteudo0 : String := if email then "email_chain" else "indeterminado"
  let tem_ocr_oficio := hasOficioMarkers s
  let tipo_conteudo1 : String :=
    if tem_ocr_oficio then
      (if tipo_conteudo0 = "email_chain" then "email_chain" else "oficio_completo")
    else tipo_conteudo0
  let tem_numero_processo := hasProcesso s
  let tem_dados_investigados := hasCpf s || hasCnpj s
  let tipo_oficio : String :=
    if hasReiteracao s then "reiteracao"
    else if hasComplemento s then "complemento"
    else if tem_ocr_oficio then "primeiro_oficio"
    else "indeterminado"
  { tipo_conteudo := tipo_conteudo1
    tem_ocr_oficio := tem_ocr_oficio
    tem_marcador_ocr := tem_marcador_ocr
    tem_numero_processo := tem_numero_processo
    tem_dados_investigados := tem_dados_investigados
    tipo_oficio := tipo_oficio
    confidence_score := (identified_elements_of s : ℚ) / 5
    fragmentos_identificados := fragmentos_of s }

/- ### `datamanagement.py` — content extractor -/

/-- `re.findall(r'<<OCR>>(.*?)<<OCR>>', text, re.DOTALL)`: repeatedly
take the two leftmost remaining delimiters and capture the span
between them, resuming after the closing delimiter. `fuel` bounds the
scan by the text length. -/
def ocrFindall (fuel : ℕ) (s : List Char) : List (List Char) :=
  match fuel with
  | 0 => []
  | fuel + 1 =>
    let del := "<<OCR>>".toList
    match (List.range (s.length + 1)).find? (fun i => tokAt del (s.drop i)) with
    | none => []
    | some i =>
      let rest := s.drop (i + 7)
      match (List.range (rest.length + 1)).find? (fun j => tokAt del (rest.drop j)) with
      | none => []
      | some j => rest.take j :: ocrFindall fuel (rest.drop (j + 7))

/-- `datamanagement.extract_oficio_content`. -/
def extract_oficio_content (text : String) (ic : InputClassification) : String :=
  if ic.tipo_conteudo = "oficio_completo" ∧ ¬ ic.tem_marcador_ocr then text
  else
    let ocr_matches :=
      if ic.tem_marcador_ocr then ocrFindall (text.toList.length + 1) text.toList else []
    if ic.tem_marcador_ocr ∧ ocr_matches ≠ [] then
      String.intercalate "\n\n" (ocr_matches.map fun l => String.mk l)
    else
      let blocks := if ic.tipo_conteudo = "email_chain" then pySplit text "\n\n" else []
      let oficio_blocks := blocks.filter fun b =>
        ["PODER JUDICIÁRIO", "OFÍCIO", "VARA", "COMARCA"].any fun marker =>
          containsTok (upperStr b.toList) marker.toList
      if ic.tipo_conteudo = "email_chain" ∧ oficio_blocks ≠ [] then
        String.intercalate "\n\n" oficio_blocks
      else "[OFICIO_NAO_ENCONTRADO]"

/- ### Pydantic models of the remaining modules -/

/-- `extract_envolvidos.InvestigatedParty`. -/
structure InvestigatedParty where
  nome : String
  cpf : Option String := none
  cnpj : Option String := none
  tipo : String
  confidence : ℚ
  deriving Repr, DecidableEq

/-- `extract_envolvidos.InvestigatedPartiesExtraction`. -/
structure InvestigatedPartiesExtraction where
  investigados : List InvestigatedParty
  total_encontrado : ℕ
  tem_mais_investigados_possiveis : Bool
  deriving Repr, DecidableEq

/-- `extract_subsidios.SubsidyMatch`. Floats are modelled as `ℚ`; the
optional `periodo` dict is modelled as an optional (inicio, fim) pair.
The source sets a `requer_de_para` attribute on instances from
`orquestrador.py`, so it is declared here as a field defaulting to
`false`. -/
structure SubsidyMatch where
  subsidio_id : String
  nome_subsidio : String
  texto_original : String
  similarity_score : ℚ
  periodo : Option (String × String) := none
  carta_circular : Option String := none
  llm_validated : Bool := false
  llm_confidence : Option ℚ := none
  texto_evidencia : Option String := none
  justificativa_match : Option String := none
  sugestao_exemplo : Option String := none
  requer_de_para : Bool := false
  deriving Repr, DecidableEq

/-- `extract_subsidios.SubsidiesExtraction`. -/
structure SubsidiesExtraction where
  subsidios_solicitados : List SubsidyMatch
  total_subsidios : ℕ
  subsidios_nao_identificados : List String
  deriving Repr, DecidableEq

/-- `extract_subsidios.LLMSubsidyValidation`. -/
structure LLMSubsidyValidation where
  subsidio_id : String
  e_valido : Bool
  confidence : ℚ
  texto_evidencia : Option String := none
  justificativa : Option String := none
  sugestao_exemplo : Option String := none
  deriving Repr, DecidableEq

/-- `extract_subsidios.LLMSubsidioNovo`. -/
structure LLMSubsidioNovo where
  texto_solicitacao : String
  texto_evidencia : String
  catalogo_id_sugerido : Option String := none
  e_subsidio_novo : Bool := true
  justificativa : String
  deriving Repr, DecidableEq

/-- `extract_subsidios.LLMValidationResult`. -/
structure LLMValidationResult where
  validacoes : List LLMSubsidyValidation
  subsidios_novos : List LLMSubsidioNovo
  todos_subsidios_capturados : Bool
  confidence_geral : ℚ
  observacoes : Option String := none
  deriving Repr, DecidableEq

/-- `instituicao_filter.InstituicaoMencionada`. -/
structure InstituicaoMencionada where
  tipo : String
  nome : Option String := none
  trecho_relevante : String
  e_destinatario_direto : Bool
  confidence : ℚ
  deriving Repr, DecidableEq

/-- `instituicao_filter.FiltroInstituicaoResult`. -/
structure FiltroInstituicaoResult where
  e_relevante_para_banco : Bool
  motivo : String
  instituicoes_mencionadas : List InstituicaoMencionada
  tem_multiplos_destinatarios : Bool
  tipo_sigilo : String
  trecho_relevante_para_banco : Option String := none
  confidence : ℚ
  deriving Repr, DecidableEq

/-- `datas_management.DateExtraction`. -/
structure DateExtraction where
  data_original : String
  data_normalizada : String
  tipo : String
  confidence : ℚ
  deriving Repr, DecidableEq

/-- `carta_circular.CartaCircular`. -/
structure CartaCircular where
  numero : String
  ano : Option String := none
  texto_original : String
  subsidios_associados : List String := []
  aplica_todos_subsidios : Bool := false
  confidence : ℚ
  deriving Repr, DecidableEq

/-- `carta_circular.CartaCircularExtraction`. -/
structure CartaCircularExtraction where
  cartas_encontradas : List CartaCircular
  total_cartas : ℕ
  tem_carta_circular : Bool
  deriving Repr, DecidableEq

/-- `DE_PARA_detector.DeParaRequirement`. -/
structure DeParaRequirement where
  requer_de_para : Bool
  subsidios_com_de_para : List String
  texto_evidencia : List String
  tipo_de_para : List String
  confidence : ℚ
  deriving Repr, DecidableEq

/-- The dictionary returned by
`datamanagement.extract_minimal_info_for_lookup`. -/
structure MinimalInfo where
  numeros_processo : List String
  cpfs : List String
  cnpjs : List String
  nomes : List String
  pode_consultar_sistema : Bool
  deriving Repr, DecidableEq

/-- The `periodos` entries built by `WarrantOrchestrator.process_warrant`
from `datas_management.extract_period_from_text` (a dict with keys
`inicio`, `fim`, `texto_original`). -/
structure Periodo where
  inicio : String
  fim : String
  texto_original : String
  deriving Repr, DecidableEq

/- ### `extract_envolvidos.py` — party extractor -/

def isPySpace (c : Char) : Bool :=
  c = ' ' ∨ c = '\t' ∨ c = '\n' ∨ c = '\r' ∨ c = '\x0b' ∨ c = '\x0c'

def isUpperAZ (c : Char) : Bool := 'A' ≤ c ∧ c ≤ 'Z'

def isLowerAz (c : Char) : Bool := 'a' ≤ c ∧ c ≤ 'z'

/-- Python word character (`\w` over the relevant ASCII range), used
for the `\b` boundaries of the free-text party patterns. -/
def isWordCh (c : Char) : Bool :=
  isUpperAZ c ∨ isLowerAz c ∨ isDigitCh c ∨ c = '_'

/-- The character class `[A-Za-zÀ-ÿ\s]` of the name group in
`extract_party_from_line`. -/
def isNameCharLine (c : Char) : Bool :=
  isUpperAZ c ∨ isLowerAz c ∨ ('À' ≤ c ∧ c ≤ 'ÿ') ∨ isPySpace c

/-- Python `str.strip()`. -/
def pyStrip (l : List Char) : List Char :=
  ((l.dropWhile isPySpace).reverse.dropWhile isPySpace).reverse

/-- Take `n` digits, returning them and the rest. -/
def takeDigitsAcc : ℕ → List Char → Option (List Char × List Char)
  | 0, s => some ([], s)
  | _ + 1, [] => none
  | n + 1, c :: s =>
    if isDigitCh c then (takeDigitsAcc n s).map (fun p => (c :: p.1, p.2)) else none

/-- The CPF digit pattern, returning the digits of the matched span
(the Python code then applies `re.sub(r'[^\d]', '', ...)`). -/
def cpfDigitsCap (s : List Char) : Option (List Char × List Char) := do
  let (d1, s) ← takeDigitsAcc 3 s
  let s := optCh '.' s
  let (d2, s) ← takeDigitsAcc 3 s
  let s := optCh '.' s
  let (d3, s) ← takeDigitsAcc 3 s
  let s := optCh '-' s
  let (d4, s) ← takeDigitsAcc 2 s
  pure (d1 ++ d2 ++ d3 ++ d4, s)

/-- The CNPJ digit pattern, returning the digits of the matched span. -/
def cnpjDigitsCap (s : List Char) : Option (List Char × List Char) := do
  let (d1, s) ← takeDigitsAcc 2 s
  let s := optCh '.' s
  let (d2, s) ← takeDigitsAcc 3 s
  let s := optCh '.' s
  let (d3, s) ← takeDigitsAcc 3 s
  let s := optCh '/' s
  let (d4, s) ← takeDigitsAcc 4 s
  let s := optCh '-' s
  let (d5, s) ← takeDigitsAcc 2 s
  pure (d1 ++ d2 ++ d3 ++ d4 ++ d5, s)

/-- The optional group `(?:,\s*)?` (deterministic here because the
continuation starts with `C`). -/
def consumeCommaSpaces (s : List Char) : List Char :=
  match s with
  | ',' :: rest => rest.dropWhile isPySpace
  | _ => s

/-- The greedy `[:\s]*` before the digit patterns. -/
def dropColonSpaces (s : List Char) : List Char :=
  s.dropWhile fun c => c = ':' ∨ isPySpace c

/-- The alternation `(?:CPF|C\.P\.F\.)` (case-sensitive). -/
def matchCpfToken (s : List Char) : Option (List Char) :=
  if tokAt "CPF".toList s then some (s.drop 3)
  else if tokAt "C.P.F.".toList s then some (s.drop 7)
  else none

/-- The alternation `(?:CNPJ|C\.N\.P\.J\.)` (case-sensitive). -/
def matchCnpjToken (s : List Char) : Option (List Char) :=
  if tokAt "CNPJ".toList s then some (s.drop 4)
  else if tokAt "C.N.P.J.".toList s then some (s.drop 9)
  else none

/-- Head match of the per-line CPF pattern
`([A-Z][A-Za-zÀ-ÿ\s]+?)(?:,\s*)?(?:CPF|C\.P\.F\.)[:\s]*(\d{3}\.?\d{3}\.?\d{3}-?\d{2})`
of `extract_party_from_line`: the lazy name group is tried from the
shortest extension upwards. Returns (raw group 1, digits of group 2,
rest after the match). -/
def matchNameCpfLineAt : List Char → Option (String × String × List Char)
  | [] => none
  | c :: rest =>
    if isUpperAZ c then
      (List.range rest.length).findSome? fun l0 =>
        let l := l0 + 1
        if (rest.take l).all isNameCharLine then
          let tail := consumeCommaSpaces (rest.drop l)
          match matchCpfToken tail with
          | none => none
          | some tail =>
            match cpfDigitsCap (dropColonSpaces tail) with
            | none => none
            | some (ds, rest2) =>
              some (String.mk (c :: rest.take l), String.mk ds, rest2)
        else none
    else none

/-- Head match of the per-line CNPJ pattern
`([A-Z].+?)(?:,\s*)?(?:CNPJ|C\.N\.P\.J\.)[:\s]*(...)`; the lazy `.+?`
matches any character except a newline. -/
def matchNameCnpjLineAt : List Char → Option (String × String × List Char)
  | [] => none
  | c :: rest =>
    if isUpperAZ c then
      (List.range rest.length).findSome? fun l0 =>
        let l := l0 + 1
        if (rest.take l).all (fun d => d ≠ '\n') then
          let tail := consumeCommaSpaces (rest.drop l)
          match matchCnpjToken tail with
          | none => none
          | some tail =>
            match cnpjDigitsCap (dropColonSpaces tail) with
            | none => none
            | some (ds, rest2) =>
              some (String.mk (c :: rest.take l), String.mk ds, rest2)
        else none
    else none

/-- `re.search` of a head matcher: leftmost match wins. -/
def searchLeftmost {α : Type} (pat : List Char → Option α) (s : List Char) : Option α :=
  (List.range (s.length + 1)).findSome? fun i => pat (s.drop i)

/-- `extract_envolvidos.extract_party_from_line`, returning the
`{'party': ..., 'id': ...}` dictionary as a pair. -/
def extract_party_from_line (line : String) : Option (InvestigatedParty × String) :=
  let l := line.toList
  if (pyStrip l).length < 5 then none
  else
    match searchLeftmost matchNameCpfLineAt l with
    | some (nome, cpf, _) =>
      some ({ nome := String.mk (pyStrip nome.toList), cpf := some cpf,
              tipo := "pessoa_fisica", confidence := 9/10 }, cpf)
    | none =>
      match searchLeftmost matchNameCnpjLineAt l with
      | some (nome, cnpj, _) =>
        some ({ nome := String.mk (pyStrip nome.toList), cnpj := some cnpj,
                tipo := "pessoa_juridica", confidence := 9/10 }, cnpj)
      | none => none

/-- Case-insensitive literal match at the head of `s`. -/
def tokAtCI (tok s : List Char) : Bool :=
  lowerStr (s.take tok.length) == lowerStr tok

/-- The keyword alternation
`(?:INVESTIGAD[OA]S?|REQUERID[OA]S?|PARTE[S]?)` of the structured
block pattern (with `re.IGNORECASE`), returning the rest after the
keyword. -/
def matchStructuredKeyword (s : List Char) : Option (List Char) :=
  let stem := fun (w : String) (s : List Char) =>
    if tokAtCI w.toList s then some (s.drop w.length) else none
  let gendered := fun (w : String) =>
    (stem w s).bind fun r =>
      match r with
      | c :: r2 =>
        if pyLower c = 'o' ∨ pyLower c = 'a' then
          match r2 with
          | d :: r3 => if pyLower d = 's' then some r3 else some r2
          | [] => some r2
        else none
      | [] => none
  match gendered "INVESTIGAD" with
  | some r => some r
  | none =>
    match gendered "REQUERID" with
    | some r => some r
    | none =>
      (stem "PARTE" s).map fun r =>
        match r with
        | c :: r2 => if pyLower c = 's' then r2 else r
        | [] => r

/-- The terminator alternation `(?:\n\n|DETERMINO|OFICIE-SE)` with its
consumed length. -/
def matchTerminator (s : List Char) : Option ℕ :=
  if tokAt "\n\n".toList s then some 2
  else if tokAtCI "DETERMINO".toList s then some 9
  else if tokAtCI "OFICIE-SE".toList s then some 9
  else none

/-- Head match of the structured block pattern of
`extract_all_investigated_parties`:
`(?:INVESTIGAD[OA]S?|REQUERID[OA]S?|PARTE[S]?)[:\s]+(.+?)(?:\n\n|DETERMINO|OFICIE-SE)`
(`re.IGNORECASE | re.DOTALL`). The greedy `[:\s]+` is tried from the
longest run downwards, the lazy capture from the shortest span
upwards. Returns (captured block, rest after the whole match). -/
def matchStructuredAt (s : List Char) : Option (String × List Char) :=
  (matchStructuredKeyword s).bind fun afterKw =>
    let maxSep := (afterKw.takeWhile fun c => c = ':' ∨ isPySpace c).length
    if maxSep = 0 then none
    else
      (List.range maxSep).findSome? fun d =>
        let k := maxSep - d
        let region := afterKw.drop k
        (List.range region.length).findSome? fun t0 =>
          let t := t0 + 1
          (matchTerminator (region.drop t)).map fun tl =>
            (String.mk (region.take t), region.drop (t + tl))

/-- `re.findall` driver: scan left to right, emitting each leftmost
match and resuming after its end; `fuel` bounds the scan. -/
def findallScan {α : Type} (pat : List Char → Option (α × List Char)) :
    ℕ → List Char → List α
  | 0, _ => []
  | _ + 1, [] => []
  | fuel + 1, s@(_ :: rest) =>
    match pat s with
    | some (a, rest2) => a :: findallScan pat fuel rest2
    | none => findallScan pat fuel rest

/-- The camel-case name group `[A-Z][a-z]+(?:\s+[A-Z][a-z]+)*` of the
free-text CPF pattern. The candidate stopping points are produced in
the greedy order (longest first); each is (name so far, rest). -/
def camelCandidates : ℕ → List Char → List Char → List (List Char × List Char)
  | 0, name, s => [(name, s)]
  | fuel + 1, name, s =>
    let sp := s.takeWhile isPySpace
    let deeper :=
      if sp.length > 0 then
        match s.drop sp.length with
        | c :: r =>
          if isUpperAZ c then
            let lows := r.takeWhile isLowerAz
            if lows.length > 0 then
              camelCandidates fuel (name ++ sp ++ (c :: lows)) (r.drop lows.length)
            else []
          else []
        | [] => []
      else []
    deeper ++ [(name, s)]

/-- Head match of the free-text CPF pattern
`(\b[A-Z][a-z]+(?:\s+[A-Z][a-z]+)*)\s*(?:,\s*)?(?:CPF|C\.P\.F\.)[:\s]*(...)`
(the `\b` is checked by the caller via the previous character). -/
def matchCamelCpfAt (s : List Char) : Option ((String × String) × List Char) :=
  match s with
  | [] => none
  | c :: rest =>
    if isUpperAZ c then
      let lows := rest.takeWhile isLowerAz
      if lows.length > 0 then
        (camelCandidates rest.length (c :: lows) (rest.drop lows.length)).findSome?
          fun cand =>
            let tail := consumeCommaSpaces (cand.2.dropWhile isPySpace)
            match matchCpfToken tail with
            | none => none
            | some tail =>
              match cpfDigitsCap (dropColonSpaces tail) with
              | none => none
              | some (ds, rest2) => some ((String.mk cand.1, String.mk ds), rest2)
      else none
    else none

/-- Head match of the free-text CNPJ pattern
`(\b[A-Z].+?)\s*(?:,\s*)?(?:CNPJ|C\.N\.P\.J\.)[:\s]*(...)` with its
lazy name group. -/
def matchLazyCnpjAt (s : List Char) : Option ((String × String) × List Char) :=
  match s with
  | [] => none
  | c :: rest =>
    if isUpperAZ c then
      (List.range rest.length).findSome? fun l0 =>
        let l := l0 + 1
        if (rest.take l).all (fun d => d ≠ '\n') then
          let tail := consumeCommaSpaces ((rest.drop l).dropWhile isPySpace)
          match matchCnpjToken tail with
          | none => none
          | some tail =>
            match cnpjDigitsCap (dropColonSpaces tail) with
            | none => none
            | some (ds, rest2) => some ((String.mk (c :: rest.take l), String.mk ds), rest2)
        else none
    else none

/-- `re.findall` driver with a word-boundary requirement at the match
start (`prev` is the character before the current position). -/
def findallBoundary {α : Type} (pat : List Char → Option (α × List Char)) :
    ℕ → Option Char → List Char → List α
  | 0, _, _ => []
  | _ + 1, _, [] => []
  | fuel + 1, prev, s@(c :: rest) =>
    let boundaryOk := match prev with
      | none => true
      | some p => ¬ isWordCh p
    if boundaryOk then
      match pat s with
      | some (a, rest2) =>
        let consumed := s.length - rest2.length
        a :: findallBoundary pat fuel (s.get? (consumed - 1)) rest2
      | none => findallBoundary pat fuel (some c) rest
    else findallBoundary pat fuel (some c) rest

def tem_mais_toks : List (List Char) :=
  ["e outros".toList, "et al".toList, "demais".toList, "...".toList,
   "entre outros".toList]

/-- Accumulate a party under the `processed_ids` dedup of
`extract_all_investigated_parties`. -/
def addParty (acc : List InvestigatedParty × List String)
    (party : InvestigatedParty) (id : String) :
    List InvestigatedParty × List String :=
  if acc.2.contains id then acc else (acc.1 ++ [party], acc.2 ++ [id])

/-- `extract_envolvidos.extract_all_investigated_parties`: structured
block scan, then free-text CPF and CNPJ scans, deduplicating by
identifier. -/
def extract_all_investigated_parties (text : String) : InvestigatedPartiesExtraction :=
  let s := text.toList
  let blocks := findallScan matchStructuredAt (s.length + 1) s
  let acc1 := blocks.foldl
    (fun acc block =>
      (pySplit block "\n").foldl
        (fun acc line =>
          match extract_party_from_line line with
          | some (party, id) => addParty acc party id
          | none => acc) acc)
    (([], []) : List InvestigatedParty × List String)
  let cpfPairs := findallBoundary matchCamelCpfAt (s.length + 1) none s
  let acc2 := cpfPairs.foldl
    (fun acc pair =>
      addParty acc
        { nome := String.mk (pyStrip pair.1.toList), cpf := some pair.2,
          tipo := "pessoa_fisica", confidence := 9/10 } pair.2)
    acc1
  let cnpjPairs := findallBoundary matchLazyCnpjAt (s.length + 1) none s
  let acc3 := cnpjPairs.foldl
    (fun acc pair =>
      addParty acc
        { nome := String.mk (pyStrip pair.1.toList), cnpj := some pair.2,
          tipo := "pessoa_juridica", confidence := 9/10 } pair.2)
    acc2
  let tem_mais := containsAnyCI s tem_mais_toks
  { investigados := acc3.1
    total_encontrado := acc3.1.length
    tem_mais_investigados_possiveis := tem_mais }

/-- `orquestrador.WarrantProcessingResult`. -/
structure WarrantProcessingResult where
  session_id : String
  input_classification : InputClassification
  tipo_oficio : String
  deve_processar : Bool
  investigados : List InvestigatedParty
  subsidios : List SubsidyMatch
  periodos : List Periodo
  precisa_consulta_sistema : Bool
  dados_para_consulta : Option MinimalInfo
  confidence_geral : ℚ
  alertas : List String
  deriving Repr, DecidableEq

/- ### `extract_subsidios.py` — hybrid matching and consolidation -/

/-- One row of the catalog DataFrame produced by
`extract_subsidios.load_catalog` (the second definition, the one in
effect): `exemplos` is the `"; "`-join of the `Termos` list, hence a
plain string. The catalog file itself is external input. -/
structure CatalogRow where
  subsidio_id : String
  nome : String
  descricao : String
  exemplos : String
  deriving Repr, DecidableEq

/-- Python truthiness of an `Optional[str]` field (`None` and `""` are
falsy). -/
def optStrTruthy (o : Option String) : Bool :=
  match o with
  | some s => s ≠ ""
  | none => false

/-- The field updates applied to a TF-IDF match confirmed by the
validator (FASE 3 of `extract_and_match_subsidies_hybrid`). -/
def aplicarValidacao (m : SubsidyMatch) (v : LLMSubsidyValidation) : SubsidyMatch :=
  { m with llm_validated := true, llm_confidence := some v.confidence,
           texto_evidencia := v.texto_evidencia,
           justificativa_match := v.justificativa,
           sugestao_exemplo := v.sugestao_exemplo }

/-- The `subsidios_novos` block of FASE 3. In the committed source this
block appends, per new item, a `SubsidyMatch` whose required
`nome_subsidio` / `texto_original` fields are commented out (and line
459 drops the `=` of `subsidio_id="N/A"`); the construction is
modelled with `""` for the missing fields. -/
def novosMatches (catalog_df : List CatalogRow) (v : LLMValidationResult) :
    List SubsidyMatch :=
  if v.subsidios_novos ≠ [] then
    v.subsidios_novos.foldl
      (fun acc novo =>
        if optStrTruthy novo.catalogo_id_sugerido then
          let sug := novo.catalogo_id_sugerido.getD ""
          if catalog_df.any (fun r => r.subsidio_id = sug) then
            acc ++ [{ subsidio_id := sug, nome_subsidio := "", texto_original := "",
                      similarity_score := 0, llm_validated := true,
                      llm_confidence := some v.confidence_geral,
                      texto_evidencia := some novo.texto_evidencia,
                      justificativa_match := some novo.justificativa,
                      sugestao_exemplo := some novo.texto_solicitacao }]
          else acc
        else
          acc ++ [{ subsidio_id := "N/A", nome_subsidio := "Novo Subsídio",
                    texto_original := "", similarity_score := 0, llm_validated := true,
                    llm_confidence := some v.confidence_geral,
                    texto_evidencia := some novo.texto_evidencia,
                    justificativa_match := some novo.justificativa,
                    sugestao_exemplo := some novo.texto_solicitacao }])
      []
  else []

/-- FASE 3 of `extract_and_match_subsidies_hybrid`: for each TF-IDF
match, `next(...)` looks up the first validator verdict with the same
`subsidio_id`; accepted matches are kept with the validator fields
attached, rejected ones are dropped, and a match with no verdict is
kept as-is — followed (per the source's own indentation) by the
`subsidios_novos` block, which therefore runs once per verdict-less
match. -/
def consolidarMatches (catalog_df : List CatalogRow)
    (all_matches : List SubsidyMatch) (v : LLMValidationResult) :
    List SubsidyMatch :=
  all_matches.foldl
    (fun acc m =>
      match v.validacoes.find? (fun val => val.subsidio_id = m.subsidio_id) with
      | some val => if val.e_valido then acc ++ [aplicarValidacao m val] else acc
      | none => acc ++ [m] ++ novosMatches catalog_df v)
    []

/-- `extract_subsidios.extract_and_match_subsidies_hybrid`.

The TF-IDF phase (FASE 1) vectorises against the externally loaded
catalog, so its result — the `all_matches` / `unmatched_fragments`
pair — is supplied as the `lexical` argument; the FASE 2 call of
`validate_subsidies_with_llm` (an external LLM round-trip whose
in-source call also references the undefined name `classificacao_llm`
and whose raw-JSON result is used as a typed object) is supplied as
`validator`, with `Except.error` covering the call raising or its
response violating the `LLMValidationResult` contract. No handler
surrounds FASE 2 in the source, so a failure propagates out of the
function. -/
def extract_and_match_subsidies_hybrid (catalog_df : List CatalogRow)
    (lexical : List SubsidyMatch × List String)
    (validator : Except String LLMValidationResult)
    (use_llm_validation : Bool) : Except String SubsidiesExtraction :=
  let all_matches := lexical.1
  let unmatched_fragments := lexical.2
  if ¬ use_llm_validation then
    .ok { subsidios_solicitados := all_matches
          total_subsidios := all_matches.length
          subsidios_nao_identificados := unmatched_fragments }
  else
    match validator with
    | .error e => .error e
    | .ok v =>
      let final_matches := consolidarMatches catalog_df all_matches v
      .ok { subsidios_solicitados := final_matches
            total_subsidios := final_matches.length
            subsidios_nao_identificados :=
              (v.subsidios_novos.filter fun novo =>
                  novo.e_subsidio_novo ∧ ¬ optStrTruthy novo.catalogo_id_sugerido).map
                (fun novo => novo.texto_solicitacao) }

/- ### `datas_management.py` — period extraction (over the date oracle) -/

/-- `datas_management.extract_period_from_text`. Its inner call of
`extract_all_dates` (whose first statement sets a process-wide locale
and which scans with `dateutil`-era patterns) is supplied as the
`datas` argument. The one-date branch reads `data_normalizada` as
`YYYY-MM-...`, a shape guaranteed by `extract_all_dates` for entries
of `tipo = "periodo"`. -/
def extract_period_from_text (datas : String → List DateExtraction)
    (text : String) : Option Periodo :=
  let dates := datas text
  match dates with
  | d1 :: d2 :: _ =>
    some { inicio := d1.data_normalizada, fim := d2.data_normalizada,
           texto_original := text }
  | [d1] =>
    if d1.tipo = "periodo" then
      let date_parts := pySplit d1.data_normalizada "-"
      let year := date_parts.getD 0 ""
      let month := date_parts.getD 1 ""
      let last_day :=
        if ["01", "03", "05", "07", "08", "10", "12"].contains month then "31"
        else if ["04", "06", "09", "11"].contains month then "30"
        else if (year.toNat?.getD 0) % 4 = 0 then "29" else "28"
      some { inicio := year ++ "-" ++ month ++ "-01",
             fim := year ++ "-" ++ month ++ "-" ++ last_day,
             texto_original := d1.data_original }
    else none
  | [] => none

/- ### `orquestrador.py` — the orchestrator state machine -/

/-- The run environment of `WarrantOrchestrator.process_warrant`: the
generated session id and the stage calls that cross module or process
boundaries (`filter_by_institution`, the hybrid subsidy extraction
with its catalog file and LLM round-trip, `extract_all_dates`,
`extract_carta_circular`, `detect_de_para_requirements`,
`extract_minimal_info_for_lookup`), supplied as functions of the
arguments the source passes them. -/
structure OrchestratorEnv where
  session_id : String
  filtro : FiltroInstituicaoResult
  subsidios_hybrid : String → Except String SubsidiesExtraction
  datas : String → List DateExtraction
  carta : String → List String → CartaCircularExtraction
  de_para : String → List SubsidyMatch → DeParaRequirement
  minimal_info : String → MinimalInfo

/-- The `CC {numero}/{ano or 'N/A'}` annotation loop run over the
matches when a regulatory circular is detected. -/
def aplicarCartas (cartas : List CartaCircular) (sub : SubsidyMatch) : SubsidyMatch :=
  cartas.foldl
    (fun sub carta =>
      if carta.subsidios_associados.contains sub.nome_subsidio then
        let ano := match carta.ano with
          | some a => if a ≠ "" then a else "N/A"
          | none => "N/A"
        { sub with carta_circular := some ("CC " ++ carta.numero ++ "/" ++ ano) }
      else sub)
    sub

/-- The `oficio_content` value reaching STEP 4 of `process_warrant`:
the extracted content, replaced by the whole input when extraction
returned the not-found sentinel, and overridden by the
institution-filter span when one was isolated. -/
def oficio_content_of (env : OrchestratorEnv) (input_text : String) : String :=
  let classification := analyze_input_structure input_text
  let oficio_content0 := extract_oficio_content input_text classification
  let oficio_content1 :=
    if oficio_content0 = "[OFICIO_NAO_ENCONTRADO]" then input_text else oficio_content0
  if optStrTruthy env.filtro.trecho_relevante_para_banco then
    env.filtro.trecho_relevante_para_banco.getD ""
  else oficio_content1

/-- Python `min(s.similarity_score for s in l)` with the source's
`else`-default for an empty list. -/
def minSimOr (l : List SubsidyMatch) (dflt : ℚ) : ℚ :=
  match l with
  | [] => dflt
  | m :: rest => rest.foldl (fun acc s => min acc s.similarity_score) m.similarity_score

/-- `WarrantOrchestrator.process_warrant`. A failure of the hybrid
subsidy stage propagates (the source wraps no handler around it);
every other path returns a `WarrantProcessingResult`. -/
def process_warrant (env : OrchestratorEnv) (input_text : String) :
    Except String WarrantProcessingResult :=
  let classification := analyze_input_structure input_text
  if classification.tipo_oficio = "reiteracao" then
    .ok { session_id := env.session_id
          input_classification := classification
          tipo_oficio := "reiteracao"
          deve_processar := false
          investigados := []
          subsidios := []
          periodos := []
          precisa_consulta_sistema := false
          dados_para_consulta := none
          confidence_geral := classification.confidence_score
          alertas := ["REITERACAO DETECTADA - Marcado para analise prioritaria"] }
  else
    let alertas1 : List String :=
      if classification.tipo_oficio = "complemento" then
        ["OFICIO COMPLEMENTAR - Processamento adicional ao oficio anterior"]
      else []
    let filtro_result := env.filtro
    if ¬ filtro_result.e_relevante_para_banco then
      .ok { session_id := env.session_id
            input_classification := classification
            tipo_oficio := "nao_relevante"
            deve_processar := false
            investigados := []
            subsidios := []
            periodos := []
            precisa_consulta_sistema := false
            dados_para_consulta := none
            confidence_geral := filtro_result.confidence
            alertas := alertas1 ++ ["OFICIO NAO RELEVANTE: " ++ filtro_result.motivo] }
    else
      let instituicoes_info := String.intercalate ", "
        (filtro_result.instituicoes_mencionadas.map fun inst =>
          inst.tipo ++ ": " ++ (match inst.nome with | some n => n | none => "None"))
      let alertas2 := alertas1 ++
        ["Instituicoes detectadas: " ++ instituicoes_info,
         "Tipo de sigilo: " ++ filtro_result.tipo_sigilo] ++
        (if filtro_result.tem_multiplos_destinatarios then
          ["MULTIPLOS DESTINATARIOS - Isolado trecho para instituicao financeira"]
        else [])
      if classification.tem_ocr_oficio ∨ classification.tem_marcador_ocr then
        let oficio_content := oficio_content_of env input_text
        let alertas4 := alertas2 ++
          (if extract_oficio_content input_text classification = "[OFICIO_NAO_ENCONTRADO]" then
            ["Oficio mencionado mas nao encontrado no texto"]
          else []) ++
          (if optStrTruthy filtro_result.trecho_relevante_para_banco then
            ["Processando apenas trecho relevante para instituicao financeira"]
          else [])
        let parties_result := extract_all_investigated_parties oficio_content
        let alertas5 := alertas4 ++
          (if parties_result.tem_mais_investigados_possiveis then
            ["Possiveis investigados adicionais nao capturados"]
          else [])
        match env.subsidios_hybrid oficio_content with
        | .error e => .error e
        | .ok subsidies_result =>
          let alertas6 := alertas5 ++
            (if subsidies_result.subsidios_nao_identificados ≠ [] then
              [toString subsidies_result.subsidios_nao_identificados.length ++
                " subsidios nao identificados no catalogo"]
            else [])
          let dates := env.datas oficio_content
          let periodos := dates.foldl
            (fun acc date =>
              if date.tipo = "periodo" ∨ date.tipo = "especifica" then
                match extract_period_from_text env.datas date.data_original with
                | some p => acc ++ [p]
                | none => acc
              else acc)
            []
          let carta_result := env.carta oficio_content
            (subsidies_result.subsidios_solicitados.map fun s => s.nome_subsidio)
          let alertas7 := alertas6 ++
            (if carta_result.tem_carta_circular then
              ["Carta Circular detectada: " ++ toString carta_result.total_cartas ++
                " referencia(s)"]
            else [])
          let subsidios1 :=
            if carta_result.tem_carta_circular then
              subsidies_result.subsidios_solicitados.map
                (aplicarCartas carta_result.cartas_encontradas)
            else subsidies_result.subsidios_solicitados
          let de_para := env.de_para oficio_content subsidios1
          let alertas8 := alertas7 ++
            (if de_para.requer_de_para then
              ["DE/PARA requerido para " ++ toString de_para.subsidios_com_de_para.length ++
                " subsidios"]
            else [])
          let subsidios2 :=
            if de_para.requer_de_para then
              subsidios1.map fun sub =>
                if de_para.subsidios_com_de_para.contains sub.subsidio_id then
                  { sub with requer_de_para := true }
                else sub
            else subsidios1
          let confidence_factors : List ℚ :=
            [classification.confidence_score,
             if parties_result.investigados ≠ [] then 1 else 0,
             if subsidios2 ≠ [] then 1 else 1/2,
             minSimOr subsidios2 (1/2)]
          let confidence_geral0 := confidence_factors.sum / (confidence_factors.length : ℚ)
          let step6a :=
            if parties_result.investigados = [] then
              (confidence_geral0 * (1/2), alertas8 ++ ["CRITICO: Nenhum investigado identificado"])
            else (confidence_geral0, alertas8)
          let step6b :=
            if subsidios2 = [] then
              (step6a.1 * (1/2), step6a.2 ++ ["CRITICO: Nenhum subsidio identificado"])
            else step6a
          let confidence_geral :=
            if classification.tipo_oficio = "complemento" then step6b.1 * (9/10)
            else step6b.1
          .ok { session_id := env.session_id
                input_classification := classification
                tipo_oficio := classification.tipo_oficio
                deve_processar := true
                investigados := parties_result.investigados
                subsidios := subsidios2
                periodos := periodos
                precisa_consulta_sistema := false
                dados_para_consulta := none
                confidence_geral := confidence_geral
                alertas := step6b.2 }
      else
        let minimal_info := env.minimal_info input_text
        if ¬ minimal_info.pode_consultar_sistema then
          .ok { session_id := env.session_id
                input_classification := classification
                tipo_oficio := "indeterminado"
                deve_processar := false
                investigados := []
                subsidios := []
                periodos := []
                precisa_consulta_sistema := true
                dados_para_consulta := some minimal_info
                confidence_geral := 3/10
                alertas := alertas2 ++ ["Informacoes insuficientes para processamento"] }
        else
          .ok { session_id := env.session_id
                input_classification := classification
                tipo_oficio := classification.tipo_oficio
                deve_processar := false
                investigados := []
                subsidios := []
                periodos := []
                precisa_consulta_sistema := true
                dados_para_consulta := some minimal_info
                confidence_geral := 3/5
                alertas := ["Necessaria consulta ao sistema interno para dados completos"] }

/- ### `periodo.py` — period resolution -/

/-- Proleptic Gregorian leap year (CPython `datetime`). -/
def isLeapYear (y : ℕ) : Bool := y % 4 = 0 ∧ (y % 100 ≠ 0 ∨ y % 400 = 0)

def daysInMonth (y m : ℕ) : ℕ :=
  if m = 2 then (if isLeapYear y then 29 else 28)
  else if m = 4 ∨ m = 6 ∨ m = 9 ∨ m = 11 then 30
  else 31

/-- A `datetime.date` value (year 1–9999). -/
structure PyDate where
  year : ℕ
  month : ℕ
  day : ℕ
  deriving Repr, DecidableEq

def digitVal (c : Char) : ℕ := c.toNat - '0'.toNat

/-- `datetime.strptime(s, "%d%m%Y")` on the pipeline's eight-digit
date strings: two day digits, two month digits, four year digits,
validated against the calendar (a `ValueError` is `none`). -/
def parseDDMMYYYY (s : String) : Option PyDate :=
  match s.toList with
  | [d1, d2, m1, m2, y1, y2, y3, y4] =>
    if [d1, d2, m1, m2, y1, y2, y3, y4].all isDigitCh then
      let day := 10 * digitVal d1 + digitVal d2
      let month := 10 * digitVal m1 + digitVal m2
      let year := 1000 * digitVal y1 + 100 * digitVal y2 + 10 * digitVal y3 + digitVal y4
      if 1 ≤ month ∧ month ≤ 12 ∧ 1 ≤ day ∧ day ≤ daysInMonth year month ∧ 1 ≤ year then
        some { year := year, month := month, day := day }
      else none
    else none
  | _ => none

def pad2 (n : ℕ) : String := if n < 10 then "0" ++ toString n else toString n

/-- `strftime("%d%m%Y")` (years of interest have four digits). -/
def formatDDMMYYYY (d : PyDate) : String := pad2 d.day ++ pad2 d.month ++ toString d.year

/-- `dateutil.relativedelta(years=n)` subtraction: same month, day
clamped to the target month's length. -/
def subYears (d : PyDate) (n : ℕ) : PyDate :=
  let y := d.year - n
  { year := y, month := d.month, day := min d.day (daysInMonth y d.month) }

/-- `dateutil.relativedelta(months=n)` subtraction: months normalised
over years, day clamped. -/
def subMonths (d : PyDate) (n : ℕ) : PyDate :=
  let tot := d.year * 12 + (d.month - 1) - n
  let y := tot / 12
  let m := tot % 12 + 1
  { year := y, month := m, day := min d.day (daysInMonth y m) }

def daysBeforeMonthTable : List ℕ := [0, 0, 31, 59, 90, 120, 151, 181, 212, 243, 273, 304, 334]

def daysBeforeMonth (y m : ℕ) : ℕ :=
  (daysBeforeMonthTable.getD m 0) + (if m > 2 ∧ isLeapYear y then 1 else 0)

/-- `datetime.date.toordinal` (day 1 = 0001-01-01). -/
def toOrdinal (d : PyDate) : ℕ :=
  365 * (d.year - 1) + (d.year - 1) / 4 - (d.year - 1) / 100 + (d.year - 1) / 400 +
    daysBeforeMonth d.year d.month + d.day

/-- `datetime.date.fromordinal`, following CPython's `_ord2ymd`
(400/100/4/1-year divisions, then month estimate and correction). -/
def fromOrdinal (o : ℕ) : PyDate :=
  let n0 := o - 1
  let n400 := n0 / 146097
  let r400 := n0 % 146097
  let n100 := r400 / 36524
  let r100 := r400 % 36524
  let n4 := r100 / 1461
  let r4 := r100 % 1461
  let n1 := r4 / 365
  let n := r4 % 365
  let year0 := n400 * 400 + 1 + n100 * 100 + n4 * 4 + n1
  if n1 = 4 ∨ n100 = 4 then
    { year := year0 - 1, month := 12, day := 31 }
  else
    let leap := n1 = 3 ∧ (n4 ≠ 24 ∨ n100 = 3)
    let month0 := (n + 50) / 32
    let preceding0 := (daysBeforeMonthTable.getD month0 0) + (if month0 > 2 ∧ leap then 1 else 0)
    let month := if preceding0 > n then month0 - 1 else month0
    let preceding :=
      if preceding0 > n then
        preceding0 - (daysInMonth (if leap then 4 else 1) month)
      else preceding0
    { year := year0, month := month, day := n - preceding + 1 }

/-- `datetime - timedelta(days=n)`. -/
def subDays (d : PyDate) (n : ℕ) : PyDate := fromOrdinal (toOrdinal d - n)

def parseNatDigits (l : List Char) : ℕ := l.foldl (fun acc c => acc * 10 + digitVal c) 0

/-- `re.match(r"ULTIMOS?_?(\d+)_?STEM...", s)`: anchored prefix match of
one of the three relative-period patterns of
`calcular_data_inicio_relativa`; returns the captured count. `sfx`
is the optional unit suffix (`S?` or `(?:ES)?`). -/
def matchUltimosWith (stem sfx : List Char) (s : List Char) : Option ℕ :=
  if tokAt "ULTIMO".toList s then
    let r := s.drop 6
    let r := match r with | 'S' :: r2 => r2 | _ => r
    let r := match r with | '_' :: r2 => r2 | _ => r
    let digits := r.takeWhile isDigitCh
    if digits.length > 0 then
      let r := r.drop digits.length
      let r := match r with | '_' :: r2 => r2 | _ => r
      if tokAt stem r then
        let r := r.drop stem.length
        let _ := if tokAt sfx r then r.drop sfx.length else r
        some (parseNatDigits digits)
      else none
    else none
  else none

/-- The three `re.match` attempts of `calcular_data_inicio_relativa`,
in source order (years, then months, then days). Unit: 0 = years,
1 = months, 2 = days. -/
def matchUltimos (s : List Char) : Option (ℕ × ℕ) :=
  match matchUltimosWith "ANO".toList "S".toList s with
  | some n => some (n, 0)
  | none =>
    match matchUltimosWith "MES".toList "ES".toList s with
    | some n => some (n, 1)
    | none =>
      match matchUltimosWith "DIA".toList "S".toList s with
      | some n => some (n, 2)
      | none => none

/-- `periodo.calcular_data_inicio_relativa`. The unrecognised-pattern
fallthrough returns `periodo_info` unchanged (source line 96). -/
def calcular_data_inicio_relativa (periodo_info data_oficio : String) : String :=
  if periodo_info = "" ∨ periodo_info = "NAO_ENCONTRADO_NO_TEXTO" then
    "NAO_ENCONTRADO_NO_TEXTO"
  else if periodo_info.toList.length = 8 ∧ periodo_info.toList.all isDigitCh then
    periodo_info
  else
    let data_ref? :=
      if data_oficio ≠ "" ∧ data_oficio ≠ "NAO_ENCONTRADO_NO_TEXTO" then
        parseDDMMYYYY data_oficio
      else none
    match data_ref? with
    | none => "NAO_ENCONTRADO_NO_TEXTO"
    | some data_ref =>
      let up := upperStr periodo_info.toList
      match matchUltimos up with
      | some (n, 0) => formatDDMMYYYY (subYears data_ref n)
      | some (n, 1) => formatDDMMYYYY (subMonths data_ref n)
      | some (n, 2) => formatDDMMYYYY (subDays data_ref n)
      | some (_, _ + 3) => periodo_info
      | none =>
        if containsTok up "DESDE_ABERTURA".toList ∨ containsTok up "DESDE_INICIO".toList then
          "DESDE_ABERTURA"
        else periodo_info

/-- `periodo.resolver_data_fim`. -/
def resolver_data_fim (periodo_fim data_oficio : String) : String :=
  if periodo_fim = "DATA_OFICIO" then
    if data_oficio ≠ "" ∧ data_oficio ≠ "NAO_ENCONTRADO_NO_TEXTO" then data_oficio
    else "NAO_ENCONTRADO_NO_TEXTO"
  else periodo_fim

/-- The date-resolution block of `periodo.processar_subsidio_individual`
(source lines 386–399): it resolves the end (substituting the
document date for `DATA_OFICIO`), picks the reference date, and
computes the start from it; the surrounding LLM extraction supplies
`periodo_inicio` / `periodo_fim`, and `data_oficio` comes from the
row. Returns (periodo_quebra_inicio, periodo_quebra_fim). -/
def resolverPeriodo (periodo_inicio periodo_fim data_oficio : String) : String × String :=
  let periodo_fim_resolvido := resolver_data_fim periodo_fim data_oficio
  let data_referencia :=
    if periodo_fim_resolvido ≠ "NAO_ENCONTRADO_NO_TEXTO" then periodo_fim_resolvido
    else data_oficio
  (calcular_data_inicio_relativa periodo_inicio data_referencia, periodo_fim_resolvido)

/- ### `periodo.py` — party-key normalisation -/

/-- Decimal digits of a natural number (Python `str(int)`),
least-significant last; `fuel` bounds the recursion. -/
def natToDecAux : ℕ → ℕ → List Char
  | 0, _ => []
  | fuel + 1, n =>
    if n < 10 then [Char.ofNat ('0'.toNat + n)]
    else natToDecAux fuel (n / 10) ++ [Char.ofNat ('0'.toNat + n % 10)]

def natToDec (n : ℕ) : String := String.mk (natToDecAux (n + 1) n)

/-- `periodo.gerar_chave_envolvido`. -/
def gerar_chave_envolvido (nome documento : String) : String :=
  let nome_limpo := String.mk (upperStr (pyStrip nome.toList))
  let doc_limpo := String.mk (documento.toList.filter isDigitCh)
  if nome_limpo ≠ "" ∧ doc_limpo ≠ "" then nome_limpo ++ "|" ++ doc_limpo
  else if nome_limpo ≠ "" then nome_limpo ++ "|SEM_DOCUMENTO"
  else if doc_limpo ≠ "" then "SEM_NOME|" ++ doc_limpo
  else "ENVOLVIDO_NAO_IDENTIFICADO"

/-- An entry of the `listaSubs` party list fed to
`normalizar_dados_envolvidos`; the per-subsidy classification dict is
carried through opaquely as association pairs. -/
structure Envolvido where
  nome : String := ""
  numero_documento_envolvido : String := ""
  tipo_documento : String := ""
  subsidios : List (String × String) := []
  deriving Repr, DecidableEq

/-- A normalised party record (the input fields plus the
`chave_envolvido` identity key). -/
structure EnvolvidoNormalizado where
  chave_envolvido : String
  nome : String
  numero_documento_envolvido : String
  tipo_documento : String
  subsidios : List (String × String)
  deriving Repr, DecidableEq

/-- The collision loop of `normalizar_dados_envolvidos`: append
`_{contador}` suffixes (starting at 1) until the key leaves
`chaves_vistas`. `fuel = |chaves_vistas| + 1` suffices, the
candidates being pairwise distinct. -/
def freshChave (seen : List String) (base : String) : ℕ → ℕ → String
  | 0, k => base ++ "_" ++ natToDec k
  | fuel + 1, k =>
    let cand := base ++ "_" ++ natToDec k
    if seen.contains cand then freshChave seen base fuel (k + 1) else cand

/-- `periodo.normalizar_dados_envolvidos`. -/
def normalizar_dados_envolvidos (lista_subs : List Envolvido) : List EnvolvidoNormalizado :=
  if lista_subs = [] then
    [{ chave_envolvido := "ENVOLVIDO_NAO_IDENTIFICADO", nome := "",
       numero_documento_envolvido := "", tipo_documento := "", subsidios := [] }]
  else
    (lista_subs.foldl
      (fun (acc : List EnvolvidoNormalizado × List String) envolvido =>
        let chave0 := gerar_chave_envolvido envolvido.nome envolvido.numero_documento_envolvido
        let chave :=
          if acc.2.contains chave0 then freshChave acc.2 chave0 (acc.2.length + 1) 1
          else chave0
        (acc.1 ++ [{ chave_envolvido := chave, nome := envolvido.nome,
                     numero_documento_envolvido := envolvido.numero_documento_envolvido,
                     tipo_documento := envolvido.tipo_documento,
                     subsidios := envolvido.subsidios }],
         acc.2 ++ [chave]))
      ([], [])).1

/- ### `main.py` — pipeline boundary -/

/-- `consulta_DI4.SubsidioDI4`. -/
structure SubsidioDI4 where
  cod_tipo_ctud : String
  des_tipo_info_ctud : String
  nom_prso_gest : Option String := none
  flag_iu_docs_split : Option String := none
  versao_di4 : Option String := none
  deriving Repr, DecidableEq

/-- `consulta_DI4.DI4ConsultaResult`. -/
structure DI4ConsultaResult where
  num_cpf_cnpj : String
  encontrado : Bool
  subsidios : List SubsidioDI4
  total_subsidios : ℕ
  erro : Option String := none
  deriving Repr, DecidableEq

/-- The `extracoes` sub-dictionary built by `main.processar_oficio`. -/
structure Extracoes where
  session_id : String
  tipo_oficio : String
  deve_processar : Bool
  investigados : List InvestigatedParty
  subsidios : List SubsidyMatch
  periodos : List Periodo
  confidence_geral : ℚ
  alertas : List String
  deriving Repr, DecidableEq

/-- The result dictionary of `main.processar_oficio`. -/
structure ResultadoOficio where
  timestamp : String
  status : String
  extracoes : Option Extracoes
  subsidios_di4 : Option (List DI4ConsultaResult)
  alertas : List String
  deriving Repr, DecidableEq

/-- `main.processar_oficio`. The orchestrator run (PASSO 1, the
construction of `WarrantOrchestrator` plus `process_warrant`) is
supplied as `orch`, and the per-document DI4 lookup as `di4`; both may
fail. The outer `try/except Exception` of the source catches any
stage failure, records status `ERRO` and keeps the message in
`alertas`; the per-document DI4 failures are caught by the inner
handler and turned into alerts without changing the status. -/
def processar_oficio (timestamp : String)
    (orch : Except String WarrantProcessingResult)
    (di4 : String → Except String DI4ConsultaResult)
    (consultar_di4 : Bool) : ResultadoOficio :=
  match orch with
  | .error e =>
    { timestamp := timestamp, status := "ERRO", extracoes := none,
      subsidios_di4 := none, alertas := ["Erro critico: " ++ e] }
  | .ok processamento =>
    let extracoes : Extracoes :=
      { session_id := processamento.session_id
        tipo_oficio := processamento.tipo_oficio
        deve_processar := processamento.deve_processar
        investigados := processamento.investigados
        subsidios := processamento.subsidios
        periodos := processamento.periodos
        confidence_geral := processamento.confidence_geral
        alertas := processamento.alertas }
    let cpfs_cnpjs := processamento.investigados.foldl
      (fun acc inv =>
        acc ++ (if optStrTruthy inv.cpf then [inv.cpf.getD ""] else []) ++
          (if optStrTruthy inv.cnpj then [inv.cnpj.getD ""] else []))
      []
    let di4_pass :=
      if consultar_di4 ∧ processamento.investigados ≠ [] ∧ cpfs_cnpjs ≠ [] then
        let r := cpfs_cnpjs.foldl
          (fun (acc : List DI4ConsultaResult × List String) doc =>
            match di4 doc with
            | .ok res => (acc.1 ++ [res], acc.2)
            | .error e => (acc.1, acc.2 ++ ["Erro consulta DI4 para " ++ doc ++ ": " ++ e]))
          ([], [])
        (some r.1, r.2)
      else (none, [])
    { timestamp := timestamp
      status := if processamento.deve_processar then "PROCESSADO" else "NAO_PROCESSAVEL"
      extracoes := some extracoes
      subsidios_di4 := di4_pass.1
      alertas := di4_pass.2 ++
        (if ¬ processamento.deve_processar then processamento.alertas else []) }

/- ### Concrete fixtures used by the witness and counterexample theorems -/

/-- An orchestrator environment with inert collaborator stages. -/
def trivialEnv : OrchestratorEnv where
  session_id := "sessao-teste"
  filtro :=
    { e_relevante_para_banco := true, motivo := "banco citado",
      instituicoes_mencionadas := [], tem_multiplos_destinatarios := false,
      tipo_sigilo := "bancario", confidence := 1 }
  subsidios_hybrid := fun _ =>
    Except.ok { subsidios_solicitados := [], total_subsidios := 0,
                subsidios_nao_identificados := [] }
  datas := fun _ => []
  carta := fun _ _ => { cartas_encontradas := [], total_cartas := 0, tem_carta_circular := false }
  de_para := fun _ _ =>
    { requer_de_para := false, subsidios_com_de_para := [], texto_evidencia := [],
      tipo_de_para := [], confidence := 0 }
  minimal_info := fun _ =>
    { numeros_processo := [], cpfs := [], cnpjs := [], nomes := [],
      pode_consultar_sistema := false }

/-- A lexical (TF-IDF) match, used to exercise the matching stage. -/
def mC2 : SubsidyMatch :=
  { subsidio_id := "1", nome_subsidio := "Extrato Conta Corrente",
    texto_original := "extratos de conta corrente dos ultimos 2 anos",
    similarity_score := 1 }

/-- Two lexical matches that map to the same catalog entry. -/
def m1C3 : SubsidyMatch :=
  { subsidio_id := "3", nome_subsidio := "Cartao de Credito",
    texto_original := "faturas de cartao de credito", similarity_score := 1 }

def m2C3 : SubsidyMatch :=
  { subsidio_id := "3", nome_subsidio := "Cartao de Credito",
    texto_original := "informacoes sobre cartoes corporativos", similarity_score := 1 }

/-- A validator response accepting catalog entry `"3"`. -/
def vC3 : LLMValidationResult :=
  { validacoes := [{ subsidio_id := "3", e_valido := true, confidence := 1 }],
    subsidios_novos := [], todos_subsidios_capturados := true, confidence_geral := 1 }

/-- An order text naming one investigated party with a CPF. -/
def tC9 : String := "Investigado: Joao Silva CPF 111.222.333-44, entre outros\n\nDETERMINO"

/-- The party the extractor finds in `tC9`. -/
def partyC9 : InvestigatedParty :=
  { nome := "Joao Silva", cpf := some "11122233344", tipo := "pessoa_fisica",
    confidence := 9/10 }

/-- Two party records that generate the same identity key. -/
def listaC10 : List Envolvido := [{ nome := "A B" }, { nome := "A B" }]

/-- A non-empty hybrid extraction result for the routing-path run. -/
def subsC1 : SubsidiesExtraction :=
  { subsidios_solicitados :=
      [{ subsidio_id := "2", nome_subsidio := "Saldo",
         texto_original := "saldos bancarios", similarity_score := 1 }],
    total_subsidios := 1, subsidios_nao_identificados := [] }

/-- An orchestrator environment whose hybrid stage succeeds with
`subsC1`. -/
def envC1 : OrchestratorEnv where
  session_id := "sessao-c1"
  filtro :=
    { e_relevante_para_banco := true, motivo := "banco citado",
      instituicoes_mencionadas := [], tem_multiplos_destinatarios := false,
      tipo_sigilo := "bancario", confidence := 1 }
  subsidios_hybrid := fun _ => Except.ok subsC1
  datas := fun _ => []
  carta := fun _ _ => { cartas_encontradas := [], total_cartas := 0, tem_carta_circular := false }
  de_para := fun _ _ =>
    { requer_de_para := false, subsidios_com_de_para := [], texto_evidencia := [],
      tipo_de_para := [], confidence := 0 }
  minimal_info := fun _ =>
    { numeros_processo := [], cpfs := [], cnpjs := [], nomes := [],
      pode_consultar_sistema := false }

/- ### `extract_subsidios.SubsidyMatcher` — TF-IDF catalog matching -/

/-- Python `str.split()` (no argument): split on whitespace runs,
dropping empty pieces; `acc` carries the current word reversed. -/
def pyWordsAux : List Char → List Char → List (List Char)
  | [], acc => if acc.isEmpty then [] else [acc.reverse]
  | c :: rest, acc =>
    if isPySpace c then
      if acc.isEmpty then pyWordsAux rest [] else acc.reverse :: pyWordsAux rest []
    else pyWordsAux rest (c :: acc)

def pyWords (s : List Char) : List (List Char) := pyWordsAux s []

/-- All length-`n` windows of `w`. -/
def windowsN (n : ℕ) (w : List Char) : List (List Char) :=
  (List.range (w.length - n + 1)).map fun i => (w.drop i).take n

/-- sklearn's `_char_wb_ngrams` for `ngram_range=(3, 5)`: the word is
space-padded on both sides and its n-grams collected for n = 3, 4, 5;
once the padded word is no longer than n it is emitted whole and the
loop breaks. -/
def wordNgrams (w0 : List Char) : List (List Char) :=
  let w := ' ' :: (w0 ++ [' '])
  let L := w.length
  (if 3 < L then windowsN 3 w else [w]) ++
    (if 3 < L then (if 4 < L then windowsN 4 w else [w]) else []) ++
    (if 4 < L then (if 5 < L then windowsN 5 w else [w]) else [])

/-- The `TfidfVectorizer(analyzer='char_wb', ngram_range=(3,5),
lowercase=True)` analyzer. -/
def analyzeCharWb (doc : String) : List (List Char) :=
  (pyWords (lowerStr doc.toList)).flatMap wordNgrams

/-- The corpus document built by `SubsidyMatcher.__init__` for one
catalog row: `f"{row['nome']} {row['descricao']}"`; the examples are
appended only when `row['exemplos']` is a `list`, which the output of
`load_catalog` (a `"; "`-joined string) never is. -/
def corpusText (r : CatalogRow) : String := r.nome ++ " " ++ r.descricao

def countGram (g : List Char) (doc : String) : ℕ := (analyzeCharWb doc).count g

/-- The fitted vocabulary: every n-gram of the corpus, once. (sklearn
stores it sorted; the enumeration order is irrelevant to the dot
products and cosines below.) -/
def vocabOf (catalog_df : List CatalogRow) : List (List Char) :=
  ((catalog_df.map fun r => analyzeCharWb (corpusText r)).flatten).dedup

def n_docs (catalog_df : List CatalogRow) : ℕ := catalog_df.length

/-- Document frequency of a gram over the corpus. -/
def df_gram (catalog_df : List CatalogRow) (g : List Char) : ℕ :=
  (catalog_df.filter fun r => 0 < countGram g (corpusText r)).length

/-- sklearn smoothed idf: `ln((1 + n) / (1 + df)) + 1`. -/
noncomputable def idf (catalog_df : List CatalogRow) (g : List Char) : ℝ :=
  Real.log ((1 + (n_docs catalog_df : ℝ)) / (1 + (df_gram catalog_df g : ℝ))) + 1

/-- Unnormalised tf-idf weight (sklearn l2-normalises each row and
`cosine_similarity` renormalises; `cosSim` divides by both norms,
giving the same score). -/
noncomputable def tfidfW (catalog_df : List CatalogRow) (text : String) (g : List Char) : ℝ :=
  (countGram g text : ℝ) * idf catalog_df g

noncomputable def dotVocab (vocab : List (List Char)) (u v : List Char → ℝ) : ℝ :=
  (vocab.map fun g => u g * v g).sum

/-- Cosine similarity over the fitted vocabulary. -/
noncomputable def cosSim (vocab : List (List Char)) (u v : List Char → ℝ) : ℝ :=
  dotVocab vocab u v / (Real.sqrt (dotVocab vocab u u) * Real.sqrt (dotVocab vocab v v))

/-- The score `cosine_similarity(request_vector, catalog_vectors)[idx]`
of `SubsidyMatcher.find_matches` for one catalog row. -/
noncomputable def matchScore (catalog_df : List CatalogRow) (requested_text : String)
    (r : CatalogRow) : ℝ :=
  cosSim (vocabOf catalog_df) (tfidfW catalog_df requested_text)
    (tfidfW catalog_df (corpusText r))

/-- One candidate dictionary of `find_matches`. -/
structure ScoredMatch where
  subsidio_id : String
  nome_subsidio : String
  similarity_score : ℝ

open Classical in
/-- Stable descending insertion: a new element goes after the existing
elements of equal score (Python `sorted(..., reverse=True)` is
stable). -/
noncomputable def insertDesc (m : ScoredMatch) : List ScoredMatch → List ScoredMatch
  | [] => [m]
  | x :: xs =>
    if x.similarity_score < m.similarity_score then m :: x :: xs
    else x :: insertDesc m xs

/-- `sorted(matches, key=lambda x: x['similarity_score'], reverse=True)`
modelled as a stable insertion sort. -/
noncomputable def sortScoreDesc (l : List ScoredMatch) : List ScoredMatch :=
  l.foldl (fun acc m => insertDesc m acc) []

open Classical in
/-- `SubsidyMatcher.find_matches`: every catalog row whose cosine score
reaches the threshold, in descending score order. -/
noncomputable def find_matches (catalog_df : List CatalogRow) (requested_text : String)
    (threshold : ℝ) : List ScoredMatch :=
  sortScoreDesc ((catalog_df.map fun r =>
      ({ subsidio_id := r.subsidio_id, nome_subsidio := r.nome,
         similarity_score := matchScore catalog_df requested_text r } : ScoredMatch)).filter
    fun m => threshold ≤ m.similarity_score)

/-- A catalog with two identical entries (legitimate input: ids are
distinct). -/
def catC7 : List CatalogRow :=
  [{ subsidio_id := "1", nome := "extrato", descricao := "", exemplos := "" },
   { subsidio_id := "2", nome := "extrato", descricao := "", exemplos := "" }]

/- ### Claim theorems -/

/-- C4: for every input whose classification yields order-class
reiteration, `process_warrant` terminates immediately with
`deve_processar = false`, empty party, match and period lists, the
reiteration alert, and overall confidence equal to the classifier's
confidence score. -/
theorem C4_reiteracao_early_return (env : OrchestratorEnv) (input_text : String)
    (h : (analyze_input_structure input_text).tipo_oficio = "reiteracao") :
    process_warrant env input_text = Except.ok
      { session_id := env.session_id
        input_classification := analyze_input_structure input_text
        tipo_oficio := "reiteracao"
        deve_processar := false
        investigados := []
        subsidios := []
        periodos := []
        precisa_consulta_sistema := false
        dados_para_consulta := none
        confidence_geral := (analyze_input_structure input_text).confidence_score
        alertas := ["REITERACAO DETECTADA - Marcado para analise prioritaria"] } := by
  unfold process_warrant
  rw [if_pos h]

/-- Witness for C4 at the concrete reiteration input `"URGENTE"`. -/
theorem C4_witness :
    (analyze_input_structure "URGENTE").tipo_oficio = "reiteracao" ∧
    process_warrant trivialEnv "URGENTE" = Except.ok
      { session_id := "sessao-teste"
        input_classification := analyze_input_structure "URGENTE"
        tipo_oficio := "reiteracao"
        deve_processar := false
        investigados := []
        subsidios := []
        periodos := []
        precisa_consulta_sistema := false
        dados_para_consulta := none
        confidence_geral := (analyze_input_structure "URGENTE").confidence_score
        alertas := ["REITERACAO DETECTADA - Marcado para analise prioritaria"] } :=
  ⟨by decide, C4_reiteracao_early_return trivialEnv "URGENTE" (by decide)⟩

/-- C5: `processar_oficio` always returns a structured result whose
status is one of `PROCESSADO`, `NAO_PROCESSAVEL`, `ERRO`; when the
orchestrator stage fails, the status is `ERRO` and the failure message
is preserved in the result's alerts. -/
theorem C5_structured_result_on_failure (timestamp : String)
    (orch : Except String WarrantProcessingResult)
    (di4 : String → Except String DI4ConsultaResult) (consultar_di4 : Bool) :
    ((processar_oficio timestamp orch di4 consultar_di4).status = "PROCESSADO" ∨
      (processar_oficio timestamp orch di4 consultar_di4).status = "NAO_PROCESSAVEL" ∨
      (processar_oficio timestamp orch di4 consultar_di4).status = "ERRO") ∧
    (∀ e, orch = Except.error e →
      (processar_oficio timestamp orch di4 consultar_di4).status = "ERRO" ∧
        ("Erro critico: " ++ e) ∈ (processar_oficio timestamp orch di4 consultar_di4).alertas) := by
  constructor
  · cases orch with
    | error e => simp [processar_oficio]
    | ok p =>
      by_cases h : p.deve_processar = true <;> simp [processar_oficio, h]
  · rintro e rfl
    simp [processar_oficio]

/-- Witness for C5 at a concrete failing orchestrator stage. -/
theorem C5_witness :
    (processar_oficio "2026-01-01T00:00:00" (Except.error "falha inesperada")
        (fun _ => Except.error "sem DI4") true).status = "ERRO" ∧
    ("Erro critico: falha inesperada") ∈
      (processar_oficio "2026-01-01T00:00:00" (Except.error "falha inesperada")
        (fun _ => Except.error "sem DI4") true).alertas :=
  (C5_structured_result_on_failure "2026-01-01T00:00:00" (Except.error "falha inesperada")
    (fun _ => Except.error "sem DI4") true).2 "falha inesperada" rfl

/-- C2 (counterexample): with a non-empty lexical match list, a failing
Semantic Validator call makes the matching stage return the failure
itself — not a lexical-only match list — so the claimed fallback does
not exist in the code. -/
theorem C2_counterexample :
    extract_and_match_subsidies_hybrid [] ([mC2], []) (Except.error "validador indisponivel") true
        = Except.error "validador indisponivel" ∧
    ([mC2] : List SubsidyMatch) ≠ [] :=
  ⟨rfl, List.cons_ne_nil mC2 []⟩

/-- C2 (amended): a Semantic Validator failure is not caught by the
matching stage: with validation enabled, the failure propagates out of
`extract_and_match_subsidies_hybrid` unchanged and the lexical matches
are discarded; the lexical-only result (the TF-IDF matches with the
unmatched fragments) is produced only when LLM validation is disabled
via `use_llm_validation = False`. -/
theorem C2_amended (catalog_df : List CatalogRow) (lex : List SubsidyMatch)
    (unm : List String) (err : String) (v : Except String LLMValidationResult) :
    extract_and_match_subsidies_hybrid catalog_df (lex, unm) (Except.error err) true
        = Except.error err ∧
    extract_and_match_subsidies_hybrid catalog_df (lex, unm) v false
        = Except.ok { subsidios_solicitados := lex, total_subsidios := lex.length,
                      subsidios_nao_identificados := unm } :=
  ⟨rfl, rfl⟩

/-- C3 (counterexample): two lexical matches with the same
`catalog_id`, both accepted by the validator, are both kept: the
consolidated list contains the duplicated id twice, so no
deduplication by `catalog_id` happens. -/
theorem C3_counterexample :
    (extract_and_match_subsidies_hybrid [] ([m1C3, m2C3], []) (Except.ok vC3) true).toOption.map
        (fun r => r.subsidios_solicitados.map fun s => s.subsidio_id) = some ["3", "3"] ∧
    ¬ (["3", "3"] : List String).Nodup := by
  constructor
  · rfl
  · decide

/-- The consolidation step keeps each accepted match with its
`subsidio_id` unchanged (helper for the C3 amendment). -/
theorem consolidar_foldl_ids (catalog_df : List CatalogRow) (v : LLMValidationResult)
    (hacc : ∀ val ∈ v.validacoes, val.e_valido = true) :
    ∀ (lex_matches : List SubsidyMatch) (acc : List SubsidyMatch),
      (∀ m ∈ lex_matches, (v.validacoes.find? fun val => val.subsidio_id = m.subsidio_id).isSome) →
      ((lex_matches.foldl
          (fun acc m =>
            match v.validacoes.find? (fun val => val.subsidio_id = m.subsidio_id) with
            | some val => if val.e_valido then acc ++ [aplicarValidacao m val] else acc
            | none => acc ++ [m] ++ novosMatches catalog_df v)
          acc).map fun s => s.subsidio_id)
        = (acc.map fun s => s.subsidio_id) ++ (lex_matches.map fun s => s.subsidio_id) := by
  intro lex_matches
  induction lex_matches with
  | nil => intro acc _; simp
  | cons m rest ih =>
    intro acc hall
    have hm := hall m (List.mem_cons_self m rest)
    rcases hfind : v.validacoes.find? fun val => val.subsidio_id = m.subsidio_id with _ | val
    · rw [hfind] at hm; simp at hm
    · have hval : val ∈ v.validacoes := List.mem_of_find?_eq_some hfind
      have hid : val.subsidio_id = m.subsidio_id := by
        have := List.find?_some hfind
        exact of_decide_eq_true this
      have he : val.e_valido = true := hacc val hval
      simp only [List.foldl_cons, hfind, he, if_true]
      rw [ih (acc ++ [aplicarValidacao m val])
        (fun x hx => hall x (List.mem_cons_of_mem m hx))]
      simp [aplicarValidacao, hid]

/-- C3 (amended): consolidation applies verdicts pointwise and never
deduplicates: when every lexical match has a validator verdict and all
verdicts accept, the consolidated list carries exactly the lexical
lex_matches' catalog ids, in order — in particular, lexical lex_matches
sharing a `catalog_id` all remain in the final list. -/
theorem C3_amended (catalog_df : List CatalogRow) (lex_matches : List SubsidyMatch)
    (v : LLMValidationResult)
    (hall : ∀ m ∈ lex_matches, (v.validacoes.find? fun val => val.subsidio_id = m.subsidio_id).isSome)
    (hacc : ∀ val ∈ v.validacoes, val.e_valido = true) :
    ((consolidarMatches catalog_df lex_matches v).map fun s => s.subsidio_id)
      = lex_matches.map fun s => s.subsidio_id := by
  have := consolidar_foldl_ids catalog_df v hacc lex_matches [] hall
  simpa [consolidarMatches] using this

/-- Witness for C3's amendment at the duplicated-id inputs. -/
theorem C3_witness :
    (∀ m ∈ [m1C3, m2C3], (vC3.validacoes.find? fun val => val.subsidio_id = m.subsidio_id).isSome) ∧
    (∀ val ∈ vC3.validacoes, val.e_valido = true) ∧
    ((consolidarMatches [] [m1C3, m2C3] vC3).map fun s => s.subsidio_id)
      = [m1C3, m2C3].map fun s => s.subsidio_id :=
  ⟨by decide, by decide, C3_amended [] [m1C3, m2C3] vC3 (by decide) (by decide)⟩

/-- Any successful relative-pattern match starts with the `ULTIMO`
stem (helper for C6). -/
theorem matchUltimos_tokAt (s : List Char) (p : ℕ × ℕ)
    (h : matchUltimos s = some p) : tokAt "ULTIMO".toList s = true := by
  by_contra hne
  have hne' : tokAt "ULTIMO".toList s = false := by
    cases hx : tokAt "ULTIMO".toList s
    · rfl
    · exact absurd hx hne
  simp only [matchUltimos, matchUltimosWith, hne'] at h
  simp at h

/-- The unit tag returned by `matchUltimos` is 0, 1 or 2 (helper for
C6). -/
theorem matchUltimos_unit_lt (s : List Char) (n u : ℕ)
    (h : matchUltimos s = some (n, u)) : u < 3 := by
  unfold matchUltimos at h
  rcases hA : matchUltimosWith "ANO".toList "S".toList s with _ | kA <;> rw [hA] at h
  · rcases hM : matchUltimosWith "MES".toList "ES".toList s with _ | kM <;> rw [hM] at h
    · rcases hD : matchUltimosWith "DIA".toList "S".toList s with _ | kD <;> rw [hD] at h
      · exact absurd h (by simp)
      · cases h; omega
    · cases h; omega
  · cases h; omega

/-- Upper-casing fixes decimal digits (helper for C6). -/
theorem pyUpper_digit (c : Char) (h : isDigitCh c = true) : pyUpper c = c := by
  have h' : '0' ≤ c ∧ c ≤ '9' := of_decide_eq_true h
  have hz : ¬ ('a' ≤ c ∧ c ≤ 'z') := by
    rintro ⟨ha, _⟩
    exact absurd (le_trans ha h'.2) (by decide)
  have e1 : c ≠ 'á' := by rintro rfl; exact absurd h'.2 (by decide)
  have e2 : c ≠ 'ã' := by rintro rfl; exact absurd h'.2 (by decide)
  have e3 : c ≠ 'â' := by rintro rfl; exact absurd h'.2 (by decide)
  have e4 : c ≠ 'é' := by rintro rfl; exact absurd h'.2 (by decide)
  have e5 : c ≠ 'ê' := by rintro rfl; exact absurd h'.2 (by decide)
  have e6 : c ≠ 'í' := by rintro rfl; exact absurd h'.2 (by decide)
  have e7 : c ≠ 'ó' := by rintro rfl; exact absurd h'.2 (by decide)
  have e8 : c ≠ 'õ' := by rintro rfl; exact absurd h'.2 (by decide)
  have e9 : c ≠ 'ú' := by rintro rfl; exact absurd h'.2 (by decide)
  have e10 : c ≠ 'ç' := by rintro rfl; exact absurd h'.2 (by decide)
  simp [pyUpper, hz, e1, e2, e3, e4, e5, e6, e7, e8, e9, e10]

/-- A parsed `DDMMAAAA` string has exactly eight characters (helper
for C6). -/
theorem parseDDMMYYYY_length (s : String) (d : PyDate)
    (h : parseDDMMYYYY s = some d) : s.toList.length = 8 := by
  unfold parseDDMMYYYY at h
  split at h
  · simp_all
  · exact absurd h (by simp)

/-- `calcular_data_inicio_relativa` on a matched relative pattern with
a parsing reference date computes reference minus N units (helper for
C6). -/
theorem calcular_relativa_eq (inicio data_oficio : String) (n u : ℕ) (d : PyDate)
    (hu : matchUltimos (upperStr inicio.toList) = some (n, u))
    (hd : parseDDMMYYYY data_oficio = some d) :
    calcular_data_inicio_relativa inicio data_oficio =
      formatDDMMYYYY
        (if u = 0 then subYears d n else if u = 1 then subMonths d n else subDays d n) := by
  have hlen : data_oficio.toList.length = 8 := parseDDMMYYYY_length data_oficio d hd
  have hdo1 : data_oficio ≠ "" := by
    rintro rfl; simp at hlen
  have hdo2 : data_oficio ≠ "NAO_ENCONTRADO_NO_TEXTO" := by
    rintro rfl; simp at hlen
  have hine1 : inicio ≠ "" := by
    rintro rfl
    rw [show upperStr ("" : String).toList = [] from rfl] at hu
    rw [show matchUltimos [] = none from by decide] at hu
    exact Option.noConfusion hu
  have hine2 : inicio ≠ "NAO_ENCONTRADO_NO_TEXTO" := by
    rintro rfl
    rw [show matchUltimos (upperStr ("NAO_ENCONTRADO_NO_TEXTO" : String).toList) = none from by
      decide] at hu
    exact Option.noConfusion hu
  have h8 : ¬ (inicio.toList.length = 8 ∧ inicio.toList.all isDigitCh) := by
    rintro ⟨hl, hall⟩
    have htok := matchUltimos_tokAt _ _ hu
    rcases hc : inicio.toList with _ | ⟨c, rest⟩
    · rw [hc] at hl; simp at hl
    · rw [hc] at hall htok
      have hcd : isDigitCh c = true := List.all_eq_true.mp hall c (List.mem_cons_self c rest)
      rw [show upperStr (c :: rest) = pyUpper c :: upperStr rest from rfl] at htok
      rw [pyUpper_digit c hcd] at htok
      unfold tokAt at htok
      rw [show ("ULTIMO".toList : List Char) = ['U', 'L', 'T', 'I', 'M', 'O'] from rfl] at htok
      rw [show (['U', 'L', 'T', 'I', 'M', 'O'] : List Char).length = 6 from rfl] at htok
      rw [List.take_succ_cons] at htok
      have hbeq : c :: (upperStr rest).take 5 = ['U', 'L', 'T', 'I', 'M', 'O'] :=
        beq_iff_eq.mp htok
      have hcU : c = 'U' := (List.cons_eq_cons.mp hbeq).1
      rw [hcU] at hcd
      exact absurd hcd (by decide)
  have hu3 : u < 3 := matchUltimos_unit_lt _ n u hu
  unfold calcular_data_inicio_relativa
  rw [if_neg (by rintro (h | h) <;> [exact hine1 h; exact hine2 h])]
  rw [if_neg h8]
  rw [if_pos ⟨hdo1, hdo2⟩, hd]
  show (match matchUltimos (upperStr inicio.toList) with
    | some (n, 0) => formatDDMMYYYY (subYears d n)
    | some (n, 1) => formatDDMMYYYY (subMonths d n)
    | some (n, 2) => formatDDMMYYYY (subDays d n)
    | some (_, _ + 3) => inicio
    | none =>
      if containsTok (upperStr inicio.toList) "DESDE_ABERTURA".toList ∨
          containsTok (upperStr inicio.toList) "DESDE_INICIO".toList then "DESDE_ABERTURA"
      else inicio) = _
  rw [hu]
  interval_cases u
  · simp
  · simp
  · simp

/-- C6 (amended): for a relative period `ULTIMOS_N_ANOS/MESES/DIAS`
whose extracted end is `DATA_OFICIO` and whose document date parses,
the date-resolution block returns end = document date and start =
document date minus N of the stated unit. (When the extracted end is
the unresolved sentinel instead, the end stays the sentinel even
though the start is still computed from the document date — the
behaviour the counterexample records.) -/
theorem C6_amended (inicio data_oficio : String) (n u : ℕ) (d : PyDate)
    (hu : matchUltimos (upperStr inicio.toList) = some (n, u))
    (hd : parseDDMMYYYY data_oficio = some d) :
    resolverPeriodo inicio "DATA_OFICIO" data_oficio =
      (formatDDMMYYYY
        (if u = 0 then subYears d n else if u = 1 then subMonths d n else subDays d n),
       data_oficio) := by
  have hlen : data_oficio.toList.length = 8 := parseDDMMYYYY_length data_oficio d hd
  have hdo1 : data_oficio ≠ "" := by
    rintro rfl; simp at hlen
  have hdo2 : data_oficio ≠ "NAO_ENCONTRADO_NO_TEXTO" := by
    rintro rfl; simp at hlen
  have hres : resolver_data_fim "DATA_OFICIO" data_oficio = data_oficio := by
    unfold resolver_data_fim
    rw [if_pos rfl, if_pos ⟨hdo1, hdo2⟩]
  unfold resolverPeriodo
  rw [hres]
  show (calcular_data_inicio_relativa inicio
      (if data_oficio ≠ "NAO_ENCONTRADO_NO_TEXTO" then data_oficio else data_oficio),
     data_oficio) = _
  rw [if_pos hdo2]
  rw [calcular_relativa_eq inicio data_oficio n u d hu hd]

/-- Witness for C6's amendment: 'last 2 years' with document date
15/06/2024 resolves to (15062022, 15062024). -/
theorem C6_witness :
    matchUltimos (upperStr "ULTIMOS_2_ANOS".toList) = some (2, 0) ∧
    parseDDMMYYYY "15062024" = some ⟨2024, 6, 15⟩ ∧
    resolverPeriodo "ULTIMOS_2_ANOS" "DATA_OFICIO" "15062024" =
      (formatDDMMYYYY
        (if 0 = 0 then subYears ⟨2024, 6, 15⟩ 2
         else if 0 = 1 then subMonths ⟨2024, 6, 15⟩ 2 else subDays ⟨2024, 6, 15⟩ 2),
       "15062024") ∧
    formatDDMMYYYY (subYears ⟨2024, 6, 15⟩ 2) = "15062022" :=
  ⟨by decide, by decide,
   C6_amended "ULTIMOS_2_ANOS" "15062024" 2 0 ⟨2024, 6, 15⟩ (by decide) (by decide),
   by decide⟩

/-- C6 (counterexample): when the extracted end is the unresolved
sentinel, the document date (15/06/2024) is available and is used as
the reference for the start (15/06/2022 = minus 2 years), yet the
returned end is the sentinel, not the reference date — contradicting
the claim's "end date equal to the reference date". -/
theorem C6_counterexample :
    resolverPeriodo "ULTIMOS_2_ANOS" "NAO_ENCONTRADO_NO_TEXTO" "15062024" =
      ("15062022", "NAO_ENCONTRADO_NO_TEXTO") ∧
    "NAO_ENCONTRADO_NO_TEXTO" ≠ "15062024" := by
  constructor
  · decide
  · decide

/-- `boolNat` is at most one (helper for C8). -/
theorem boolNat_le_one (b : Bool) : boolNat b ≤ 1 := by
  cases b <;> simp [boolNat]

/-- The fragment list is non-empty exactly when one of the five
scanned families fired (helper for C8). -/
theorem fragmentos_of_pos_iff (s : List Char) :
    boolNat (decide ((fragmentos_of s).length > 0)) =
      boolNat (hasOcrPair s || hasEmailHeaders s || hasOficioMarkers s ||
        hasProcesso s || (hasCpf s || hasCnpj s)) := by
  rcases h1 : hasOcrPair s <;> rcases h2 : hasEmailHeaders s <;>
    rcases h3 : hasOficioMarkers s <;> rcases h4 : hasProcesso s <;>
    rcases h5 : hasCpf s || hasCnpj s <;>
    simp [fragmentos_of, h1, h2, h3, h4, h5, boolNat]

/-- C8 (amended): the structural classifier's confidence is the number
of fired indicator families divided by five — the five indicators
being order-boundary markers, OCR delimiters, the process-number
pattern, tax-identifier patterns, and the non-emptiness of the
fragment list (equivalently, any of the scanned families including
email headers) — and it always lies in [0, 1]. Reiteration and
supplement tokens influence only the order-class, never the score. -/
theorem C8_amended (text : String) :
    (analyze_input_structure text).confidence_score =
      ((boolNat (hasOficioMarkers text.toList) + boolNat (hasOcrPair text.toList) +
        boolNat (hasProcesso text.toList) +
        boolNat (hasCpf text.toList || hasCnpj text.toList) +
        boolNat (hasOcrPair text.toList || hasEmailHeaders text.toList ||
          hasOficioMarkers text.toList || hasProcesso text.toList ||
          (hasCpf text.toList || hasCnpj text.toList)) : ℕ) : ℚ) / 5 ∧
    0 ≤ (analyze_input_structure text).confidence_score ∧
    (analyze_input_structure text).confidence_score ≤ 1 := by
  have hconf : (analyze_input_structure text).confidence_score =
      (identified_elements_of text.toList : ℚ) / 5 := rfl
  have hsum : identified_elements_of text.toList =
      boolNat (hasOficioMarkers text.toList) + boolNat (hasOcrPair text.toList) +
        boolNat (hasProcesso text.toList) +
        boolNat (hasCpf text.toList || hasCnpj text.toList) +
        boolNat (hasOcrPair text.toList || hasEmailHeaders text.toList ||
          hasOficioMarkers text.toList || hasProcesso text.toList ||
          (hasCpf text.toList || hasCnpj text.toList)) := by
    unfold identified_elements_of
    rw [fragmentos_of_pos_iff]
  have hle : identified_elements_of text.toList ≤ 5 := by
    rw [hsum]
    have b1 := boolNat_le_one (hasOficioMarkers text.toList)
    have b2 := boolNat_le_one (hasOcrPair text.toList)
    have b3 := boolNat_le_one (hasProcesso text.toList)
    have b4 := boolNat_le_one (hasCpf text.toList || hasCnpj text.toList)
    have b5 := boolNat_le_one (hasOcrPair text.toList || hasEmailHeaders text.toList ||
      hasOficioMarkers text.toList || hasProcesso text.toList ||
      (hasCpf text.toList || hasCnpj text.toList))
    omega
  refine ⟨by rw [hconf, hsum], ?_, ?_⟩
  · rw [hconf]
    positivity
  · rw [hconf]
    rw [div_le_one (by norm_num)]
    exact_mod_cast le_trans hle (by norm_num)

/-- C8 (counterexample): `"URGENTE"` fires the reiteration family (the
order-class becomes reiteration), yet the confidence is 0, not the
claimed 1/6 — reiteration tokens are not part of the score and the
divisor is five, not six. -/
theorem C8_counterexample :
    (analyze_input_structure "URGENTE").tipo_oficio = "reiteracao" ∧
    (analyze_input_structure "URGENTE").confidence_score = 0 ∧ (0 : ℚ) ≠ 1/6 := by
  refine ⟨by decide, ?_, by norm_num⟩
  have h : identified_elements_of "URGENTE".toList = 0 := by decide
  show (identified_elements_of "URGENTE".toList : ℚ) / 5 = 0
  rw [h]; norm_num

/-- A property preserved by every fold step is preserved by the fold
(helper). -/
theorem foldl_inv {α β : Type} (Q : β → Prop) (l : List α) (g : β → α → β)
    (hg : ∀ acc a, Q acc → Q (g acc a)) :
    ∀ acc, Q acc → Q (l.foldl g acc) := by
  induction l with
  | nil => exact fun acc h => h
  | cons x xs ih => exact fun acc h => ih _ (hg acc x h)

/-- A party extracted from a line always carries a CPF or a CNPJ
(helper for C9). -/
theorem extract_party_from_line_has_id (line : String) (pr : InvestigatedParty × String)
    (h : extract_party_from_line line = some pr) :
    pr.1.cpf.isSome = true ∨ pr.1.cnpj.isSome = true := by
  simp only [extract_party_from_line] at h
  split at h
  · exact absurd h (by simp)
  · split at h
    · cases h; left; rfl
    · split at h
      · cases h; right; rfl
      · exact absurd h (by simp)

/-- `addParty` preserves the everyone-has-an-identifier invariant
(helper for C9). -/
theorem addParty_preserve (acc : List InvestigatedParty × List String)
    (party : InvestigatedParty) (id : String)
    (hacc : ∀ p ∈ acc.1, p.cpf.isSome = true ∨ p.cnpj.isSome = true)
    (hp : party.cpf.isSome = true ∨ party.cnpj.isSome = true) :
    ∀ p ∈ (addParty acc party id).1, p.cpf.isSome = true ∨ p.cnpj.isSome = true := by
  intro p hep
  unfold addParty at hep
  split at hep
  · exact hacc p hep
  · rcases List.mem_append.mp hep with h | h
    · exact hacc p h
    · rw [List.mem_singleton.mp h]; exact hp

/-- C9 (amended): the party extractor only ever emits parties that
carry a tax identifier — every element of the returned list has a CPF
or a CNPJ; a name found without an adjacent identifier is dropped, not
kept flagged. -/
theorem C9_amended (text : String) :
    ∀ p ∈ (extract_all_investigated_parties text).investigados,
      p.cpf.isSome = true ∨ p.cnpj.isSome = true := by
  unfold extract_all_investigated_parties
  refine foldl_inv
    (fun acc : List InvestigatedParty × List String =>
      ∀ p ∈ acc.1, p.cpf.isSome = true ∨ p.cnpj.isSome = true)
    _ _ ?_ _ ?_
  · intro acc pair h
    exact addParty_preserve acc _ pair.2 h (Or.inr rfl)
  refine foldl_inv
    (fun acc : List InvestigatedParty × List String =>
      ∀ p ∈ acc.1, p.cpf.isSome = true ∨ p.cnpj.isSome = true)
    _ _ ?_ _ ?_
  · intro acc pair h
    exact addParty_preserve acc _ pair.2 h (Or.inl rfl)
  refine foldl_inv
    (fun acc : List InvestigatedParty × List String =>
      ∀ p ∈ acc.1, p.cpf.isSome = true ∨ p.cnpj.isSome = true)
    _ _ ?_ _ ?_
  · intro acc block h
    refine foldl_inv
      (fun acc : List InvestigatedParty × List String =>
        ∀ p ∈ acc.1, p.cpf.isSome = true ∨ p.cnpj.isSome = true)
      _ _ ?_ _ h
    intro acc2 line h2
    rcases hline : extract_party_from_line line with _ | pr
    · simpa [hline] using h2
    · simp only [hline]
      exact addParty_preserve acc2 pr.1 pr.2 h2 (extract_party_from_line_has_id line pr hline)
  · intro p hp
    simp at hp

/-- C9 (counterexample): a targeted-party block naming `Joao Silva`
with no tax identifier anywhere: the line is examined but yields no
party, and the returned party list is empty — the name-only party is
dropped rather than kept flagged as identifier-less. -/
theorem C9_counterexample :
    extract_party_from_line "Joao Silva" = none ∧
    (extract_all_investigated_parties
        "INVESTIGADOS: Joao Silva\n\nDETERMINO a quebra de sigilo").investigados = [] := by
  constructor
  · decide
  · decide

/-- Witness for C9's amendment at the concrete text `tC9`. -/
theorem C9_witness :
    partyC9 ∈ (extract_all_investigated_parties tC9).investigados ∧
    (partyC9.cpf.isSome = true ∨ partyC9.cnpj.isSome = true) := by
  have hlist : (extract_all_investigated_parties tC9).investigados = [partyC9] := rfl
  have hm : partyC9 ∈ (extract_all_investigated_parties tC9).investigados := by
    rw [hlist]; exact List.mem_singleton.mpr rfl
  exact ⟨hm, C9_amended tC9 partyC9 hm⟩

/-- Decimal digit characters decode to their value (helper for C10). -/
theorem digitVal_ofNat (m : ℕ) (h : m < 10) :
    digitVal (Char.ofNat ('0'.toNat + m)) = m := by
  interval_cases m <;> decide

/-- Decoding inverts the decimal encoding (helper for C10). -/
theorem decodeDec_natToDecAux : ∀ (fuel n : ℕ), n < 10 ^ fuel →
    (natToDecAux fuel n).foldl (fun a c => 10 * a + digitVal c) 0 = n := by
  intro fuel
  induction fuel with
  | zero =>
    intro n h
    have hn : n = 0 := by simpa using h
    subst hn
    rfl
  | succ fuel ih =>
    intro n h
    unfold natToDecAux
    split
    · rename_i h10
      simp only [List.foldl_cons, List.foldl_nil]
      rw [digitVal_ofNat n h10]
      omega
    · rename_i h10
      push_neg at h10
      rw [List.foldl_append]
      rw [ih (n / 10) (by
        rw [Nat.div_lt_iff_lt_mul (by norm_num)]
        calc n < 10 ^ (fuel + 1) := h
        _ = 10 ^ fuel * 10 := by ring)]
      simp only [List.foldl_cons, List.foldl_nil]
      rw [digitVal_ofNat (n % 10) (Nat.mod_lt _ (by norm_num))]
      omega

/-- The decimal encoding of naturals is injective (helper for C10). -/
theorem natToDec_injective (m n : ℕ) (h : natToDec m = natToDec n) : m = n := by
  have hb : (10 : ℕ) > 1 := by norm_num
  have hm : m < 10 ^ (m + 1) :=
    lt_of_lt_of_le (Nat.lt_pow_self hb m) (Nat.pow_le_pow_right (by norm_num) (Nat.le_succ m))
  have hn : n < 10 ^ (n + 1) :=
    lt_of_lt_of_le (Nat.lt_pow_self hb n) (Nat.pow_le_pow_right (by norm_num) (Nat.le_succ n))
  have hlist : natToDecAux (m + 1) m = natToDecAux (n + 1) n := by
    have := congrArg String.data h
    simpa [natToDec] using this
  have h1 := decodeDec_natToDecAux (m + 1) m hm
  have h2 := decodeDec_natToDecAux (n + 1) n hn
  rw [hlist, h2] at h1
  omega

/-- Distinct counters give distinct suffixed keys (helper for C10). -/
theorem chaveCand_injective (base : String) (i j : ℕ)
    (h : base ++ "_" ++ natToDec i = base ++ "_" ++ natToDec j) : i = j := by
  apply natToDec_injective
  apply String.ext
  have hd := congrArg String.data h
  rw [String.data_append (base ++ "_") (natToDec i),
      String.data_append (base ++ "_") (natToDec j)] at hd
  exact List.append_cancel_left hd

/-- Among any `|seen| + 1` consecutive suffixed keys, one is fresh
(helper for C10). -/
theorem exists_fresh_suffix (seen : List String) (base : String) (k : ℕ) :
    ∃ i, i < seen.length + 1 ∧ (base ++ "_" ++ natToDec (k + i)) ∉ seen := by
  by_contra hno
  push_neg at hno
  have hinj : Function.Injective fun i => base ++ "_" ++ natToDec (k + i) := by
    intro a b hab
    have := chaveCand_injective base (k + a) (k + b) hab
    omega
  have hnodup :
      ((List.range (seen.length + 1)).map fun i => base ++ "_" ++ natToDec (k + i)).Nodup :=
    (List.nodup_range _).map hinj
  have hsub : ((List.range (seen.length + 1)).map fun i => base ++ "_" ++ natToDec (k + i)) ⊆ seen := by
    intro x hx
    rcases List.mem_map.mp hx with ⟨i, hi, rfl⟩
    exact hno i (List.mem_range.mp hi)
  have hlen := (hnodup.subperm hsub).length_le
  simp at hlen

/-- With enough fuel, the collision loop returns a key outside
`seen` (helper for C10). -/
theorem freshChave_not_mem (seen : List String) (base : String) :
    ∀ (fuel k : ℕ),
      (∃ i, i < fuel ∧ (base ++ "_" ++ natToDec (k + i)) ∉ seen) →
      freshChave seen base fuel k ∉ seen := by
  intro fuel
  induction fuel with
  | zero =>
    rintro k ⟨i, hi, _⟩
    omega
  | succ fuel ih =>
    rintro k ⟨i, hi, hfree⟩
    by_cases hc : seen.contains (base ++ "_" ++ natToDec k) = true
    · rw [show freshChave seen base (fuel + 1) k = freshChave seen base fuel (k + 1) from by
        simp only [freshChave]; rw [if_pos hc]]
      apply ih
      rcases i with _ | i2
      · exact absurd (List.elem_iff.mp hc) (by simpa using hfree)
      · refine ⟨i2, by omega, ?_⟩
        have : k + 1 + i2 = k + (i2 + 1) := by omega
        rw [this]
        exact hfree
    · rw [show freshChave seen base (fuel + 1) k = base ++ "_" ++ natToDec k from by
        simp only [freshChave]; rw [if_neg hc]]
      intro hmem
      exact hc (List.elem_iff.mpr hmem)

/-- The collision loop never returns the empty string (helper for
C10). -/
theorem freshChave_ne_empty (seen : List String) (base : String) :
    ∀ (fuel k : ℕ), freshChave seen base fuel k ≠ "" := by
  intro fuel
  induction fuel with
  | zero =>
    intro k he
    rw [show freshChave seen base 0 k = base ++ "_" ++ natToDec k from by
      simp only [freshChave]] at he
    have hl := congrArg String.length he
    rw [String.length_append (base ++ "_") (natToDec k),
        String.length_append base "_"] at hl
    rw [show ("_" : String).length = 1 from by decide,
        show ("" : String).length = 0 from by decide] at hl
    omega
  | succ fuel ih =>
    intro k
    simp only [freshChave]
    split
    · exact ih (k + 1)
    · intro he
      have hl := congrArg String.length he
      rw [String.length_append (base ++ "_") (natToDec k),
          String.length_append base "_"] at hl
      rw [show ("_" : String).length = 1 from by decide,
          show ("" : String).length = 0 from by decide] at hl
      omega

/-- The generated identity key is never empty (helper for C10). -/
theorem gerar_chave_ne_empty (nome documento : String) :
    gerar_chave_envolvido nome documento ≠ "" := by
  simp only [gerar_chave_envolvido]
  split_ifs with h1 h2 h3
  · intro he
    have hl := congrArg String.length he
    rw [String.length_append, String.length_append] at hl
    rw [show ("|" : String).length = 1 from by decide,
        show ("" : String).length = 0 from by decide] at hl
    omega
  · intro he
    have hl := congrArg String.length he
    rw [String.length_append] at hl
    rw [show ("|SEM_DOCUMENTO" : String).length = 14 from by decide,
        show ("" : String).length = 0 from by decide] at hl
    omega
  · intro he
    have hl := congrArg String.length he
    rw [String.length_append] at hl
    rw [show ("SEM_NOME|" : String).length = 9 from by decide,
        show ("" : String).length = 0 from by decide] at hl
    omega
  · intro he
    exact absurd he (by decide)

/-- The normalisation fold keeps the key column duplicate-free and
non-empty (helper for C10). -/
theorem normalizar_fold_invariante :
    ∀ (l : List Envolvido) (acc : List EnvolvidoNormalizado × List String),
      acc.1.map (fun e => e.chave_envolvido) = acc.2 → acc.2.Nodup →
      (∀ k ∈ acc.2, k ≠ "") →
      ((((l.foldl
          (fun acc envolvido =>
            let chave0 := gerar_chave_envolvido envolvido.nome
              envolvido.numero_documento_envolvido
            let chave :=
              if acc.2.contains chave0 then freshChave acc.2 chave0 (acc.2.length + 1) 1
              else chave0
            (acc.1 ++ [{ chave_envolvido := chave, nome := envolvido.nome,
                         numero_documento_envolvido := envolvido.numero_documento_envolvido,
                         tipo_documento := envolvido.tipo_documento,
                         subsidios := envolvido.subsidios }],
             acc.2 ++ [chave]))
          acc).1.map fun e => e.chave_envolvido).Nodup) ∧
        ∀ k ∈ ((l.foldl
          (fun acc envolvido =>
            let chave0 := gerar_chave_envolvido envolvido.nome
              envolvido.numero_documento_envolvido
            let chave :=
              if acc.2.contains chave0 then freshChave acc.2 chave0 (acc.2.length + 1) 1
              else chave0
            (acc.1 ++ [{ chave_envolvido := chave, nome := envolvido.nome,
                         numero_documento_envolvido := envolvido.numero_documento_envolvido,
                         tipo_documento := envolvido.tipo_documento,
                         subsidios := envolvido.subsidios }],
             acc.2 ++ [chave]))
          acc).1.map fun e => e.chave_envolvido), k ≠ "") := by
  intro l
  induction l with
  | nil =>
    intro acc h1 h2 h3
    constructor
    · rw [List.foldl_nil, h1]; exact h2
    · rw [List.foldl_nil, h1]; exact h3
  | cons env rest ih =>
    intro acc h1 h2 h3
    rw [List.foldl_cons]
    apply ih
    · show (acc.1 ++ [_]).map (fun e : EnvolvidoNormalizado => e.chave_envolvido)
          = acc.2 ++ [_]
      rw [List.map_append, h1]
      rfl
    · show (acc.2 ++ [_]).Nodup
      set chave0 := gerar_chave_envolvido env.nome env.numero_documento_envolvido with hc0
      by_cases hc : acc.2.contains chave0 = true
      · rw [if_pos hc]
        have hfresh : freshChave acc.2 chave0 (acc.2.length + 1) 1 ∉ acc.2 :=
          freshChave_not_mem acc.2 chave0 (acc.2.length + 1) 1
            (exists_fresh_suffix acc.2 chave0 1)
        rw [List.nodup_append]
        exact ⟨h2, List.nodup_singleton _, by
          intro a ha hb
          rw [List.mem_singleton.mp hb] at ha
          exact hfresh ha⟩
      · rw [if_neg hc]
        have hfresh : chave0 ∉ acc.2 := fun hmem => hc (List.elem_iff.mpr hmem)
        rw [List.nodup_append]
        exact ⟨h2, List.nodup_singleton _, by
          intro a ha hb
          rw [List.mem_singleton.mp hb] at ha
          exact hfresh ha⟩
    · show ∀ k ∈ acc.2 ++ [_], k ≠ ""
      intro k hk
      rcases List.mem_append.mp hk with hk | hk
      · exact h3 k hk
      · rw [List.mem_singleton.mp hk]
        by_cases hc : acc.2.contains
            (gerar_chave_envolvido env.nome env.numero_documento_envolvido) = true
        · rw [if_pos hc]
          exact freshChave_ne_empty _ _ _ _
        · rw [if_neg hc]
          exact gerar_chave_ne_empty _ _

/-- C10: the normalisation step assigns every party record a non-empty
identity key and the keys of the returned records are pairwise
distinct, so the parallel fan-out's results can be merged back by key
without collisions. -/
theorem C10_chaves_unicas (lista_subs : List Envolvido) :
    (((normalizar_dados_envolvidos lista_subs).map fun e => e.chave_envolvido).Nodup) ∧
    ∀ k ∈ (normalizar_dados_envolvidos lista_subs).map fun e => e.chave_envolvido, k ≠ "" := by
  unfold normalizar_dados_envolvidos
  split
  · constructor
    · simp
    · intro k hk
      simp at hk
      subst hk
      decide
  · exact ⟨(normalizar_fold_invariante lista_subs ([], []) rfl List.nodup_nil (by simp)).1,
      (normalizar_fold_invariante lista_subs ([], []) rfl List.nodup_nil (by simp)).2⟩

/-- Witness for C10 at two colliding party records. -/
theorem C10_witness :
    ((normalizar_dados_envolvidos listaC10).map fun e => e.chave_envolvido)
        = ["A B|SEM_DOCUMENTO", "A B|SEM_DOCUMENTO_1"] ∧
    (((normalizar_dados_envolvidos listaC10).map fun e => e.chave_envolvido).Nodup) ∧
    ∀ k ∈ (normalizar_dados_envolvidos listaC10).map fun e => e.chave_envolvido, k ≠ "" :=
  ⟨by decide, (C10_chaves_unicas listaC10).1, (C10_chaves_unicas listaC10).2⟩

/-- A score-preserving fold leaves `similarity_score` unchanged
(helper for C1). -/
theorem foldl_score_preserve {γ : Type} (step : SubsidyMatch → γ → SubsidyMatch)
    (hstep : ∀ s c, (step s c).similarity_score = s.similarity_score) :
    ∀ (cs : List γ) (s : SubsidyMatch),
      (cs.foldl step s).similarity_score = s.similarity_score := by
  intro cs
  induction cs with
  | nil => intro s; rfl
  | cons c cs ih =>
    intro s
    rw [List.foldl_cons, ih (step s c), hstep s c]

/-- The circular-annotation pass preserves similarity scores (helper
for C1). -/
theorem aplicarCartas_score (cartas : List CartaCircular) (s : SubsidyMatch) :
    (aplicarCartas cartas s).similarity_score = s.similarity_score := by
  unfold aplicarCartas
  apply foldl_score_preserve
  intro s c
  dsimp only
  split
  · rfl
  · rfl

/-- The folded minimum ignores score-preserving maps (helper for
C1). -/
theorem foldl_min_map (f : SubsidyMatch → SubsidyMatch)
    (hf : ∀ s, (f s).similarity_score = s.similarity_score) :
    ∀ (rest : List SubsidyMatch) (a : ℚ),
      (rest.map f).foldl (fun acc s => min acc s.similarity_score) a =
        rest.foldl (fun acc s => min acc s.similarity_score) a := by
  intro rest
  induction rest with
  | nil => intro a; rfl
  | cons m ms ih =>
    intro a
    rw [List.map_cons, List.foldl_cons, List.foldl_cons, hf m, ih]

/-- `minSimOr` ignores score-preserving maps (helper for C1). -/
theorem minSimOr_map (f : SubsidyMatch → SubsidyMatch)
    (hf : ∀ s, (f s).similarity_score = s.similarity_score)
    (l : List SubsidyMatch) (dflt : ℚ) :
    minSimOr (l.map f) dflt = minSimOr l dflt := by
  cases l with
  | nil => rfl
  | cons m rest =>
    simp only [List.map_cons, minSimOr]
    rw [hf m, foldl_min_map f hf]

/-- C1: on every run that reaches routing (not a reiteration, relevant,
with extractable content, hybrid stage succeeded), the overall
confidence is the unweighted mean of the four factors — classifier
confidence, 1 if any party was found else 0, 1 if any consolidated
match was found else 1/2, and the minimum similarity over consolidated
matches (1/2 if none) — multiplied by 1/2 when no party was found, by
1/2 when no match was found, and by 9/10 when the order-class is
supplement (`complemento`). -/
theorem C1_confidence_routing (env : OrchestratorEnv) (input_text : String)
    (subs : SubsidiesExtraction)
    (h1 : (analyze_input_structure input_text).tipo_oficio ≠ "reiteracao")
    (h2 : env.filtro.e_relevante_para_banco = true)
    (h3 : (analyze_input_structure input_text).tem_ocr_oficio = true ∨
      (analyze_input_structure input_text).tem_marcador_ocr = true)
    (h4 : env.subsidios_hybrid (oficio_content_of env input_text) = Except.ok subs) :
    (process_warrant env input_text).toOption.map
        (fun r => (r.deve_processar, r.confidence_geral)) =
      some (true,
        (((analyze_input_structure input_text).confidence_score +
            (if (extract_all_investigated_parties
                (oficio_content_of env input_text)).investigados ≠ [] then 1 else 0) +
            (if subs.subsidios_solicitados ≠ [] then 1 else 1/2) +
            minSimOr subs.subsidios_solicitados (1/2)) / 4) *
          (if (extract_all_investigated_parties
              (oficio_content_of env input_text)).investigados = [] then 1/2 else 1) *
          (if subs.subsidios_solicitados = [] then 1/2 else 1) *
          (if (analyze_input_structure input_text).tipo_oficio = "complemento"
            then 9/10 else 1)) := by
  simp only [process_warrant]
  rw [if_neg h1]
  rw [if_neg (not_not_intro h2)]
  rw [if_pos h3]
  rw [h4]
  simp only [Except.toOption, Option.map]
  by_cases hcarta : (env.carta (oficio_content_of env input_text)
      (subs.subsidios_solicitados.map fun s => s.nome_subsidio)).tem_carta_circular = true
  case pos =>
    rw [if_pos hcarta]
    by_cases hdp : (env.de_para (oficio_content_of env input_text)
        (subs.subsidios_solicitados.map
          (aplicarCartas (env.carta (oficio_content_of env input_text)
            (subs.subsidios_solicitados.map fun s => s.nome_subsidio)).cartas_encontradas))).requer_de_para = true
    case pos =>
      rw [if_pos hdp]
      rw [minSimOr_map _ (fun s => by split <;> rfl)]
      rw [minSimOr_map _ (aplicarCartas_score _)]
      simp only [List.map_eq_nil_iff, Option.some.injEq, Prod.mk.injEq, true_and]
      by_cases hp : (extract_all_investigated_parties
          (oficio_content_of env input_text)).investigados = [] <;>
        by_cases hs : subs.subsidios_solicitados = [] <;>
        by_cases hcpl : (analyze_input_structure input_text).tipo_oficio = "complemento" <;>
        simp only [hp, hs, hcpl, List.map_eq_nil_iff, ne_eq, not_true_eq_false,
          not_false_eq_true, if_true, if_false, ite_true, ite_false, List.sum_cons,
          List.sum_nil, List.length_cons, List.length_nil] <;>
        push_cast <;> ring
    case neg =>
      rw [if_neg hdp]
      rw [minSimOr_map _ (aplicarCartas_score _)]
      simp only [List.map_eq_nil_iff, Option.some.injEq, Prod.mk.injEq, true_and]
      by_cases hp : (extract_all_investigated_parties
          (oficio_content_of env input_text)).investigados = [] <;>
        by_cases hs : subs.subsidios_solicitados = [] <;>
        by_cases hcpl : (analyze_input_structure input_text).tipo_oficio = "complemento" <;>
        simp only [hp, hs, hcpl, List.map_eq_nil_iff, ne_eq, not_true_eq_false,
          not_false_eq_true, if_true, if_false, ite_true, ite_false, List.sum_cons,
          List.sum_nil, List.length_cons, List.length_nil] <;>
        push_cast <;> ring
  case neg =>
    rw [if_neg hcarta]
    by_cases hdp : (env.de_para (oficio_content_of env input_text)
        subs.subsidios_solicitados).requer_de_para = true
    case pos =>
      rw [if_pos hdp]
      rw [minSimOr_map _ (fun s => by split <;> rfl)]
      simp only [List.map_eq_nil_iff, Option.some.injEq, Prod.mk.injEq, true_and]
      by_cases hp : (extract_all_investigated_parties
          (oficio_content_of env input_text)).investigados = [] <;>
        by_cases hs : subs.subsidios_solicitados = [] <;>
        by_cases hcpl : (analyze_input_structure input_text).tipo_oficio = "complemento" <;>
        simp only [hp, hs, hcpl, List.map_eq_nil_iff, ne_eq, not_true_eq_false,
          not_false_eq_true, if_true, if_false, ite_true, ite_false, List.sum_cons,
          List.sum_nil, List.length_cons, List.length_nil] <;>
        push_cast <;> ring
    case neg =>
      rw [if_neg hdp]
      simp only [Option.some.injEq, Prod.mk.injEq, true_and]
      by_cases hp : (extract_all_investigated_parties
          (oficio_content_of env input_text)).investigados = [] <;>
        by_cases hs : subs.subsidios_solicitados = [] <;>
        by_cases hcpl : (analyze_input_structure input_text).tipo_oficio = "complemento" <;>
        simp only [hp, hs, hcpl, List.map_eq_nil_iff, ne_eq, not_true_eq_false,
          not_false_eq_true, if_true, if_false, ite_true, ite_false, List.sum_cons,
          List.sum_nil, List.length_cons, List.length_nil] <;>
        push_cast <;> ring

/-- Witness for C1 on a concrete routed run (order text `"VARA"`,
hybrid stage returning one match). -/
theorem C1_witness :
    (analyze_input_structure "VARA").tipo_oficio ≠ "reiteracao" ∧
    envC1.filtro.e_relevante_para_banco = true ∧
    ((analyze_input_structure "VARA").tem_ocr_oficio = true ∨
      (analyze_input_structure "VARA").tem_marcador_ocr = true) ∧
    envC1.subsidios_hybrid (oficio_content_of envC1 "VARA") = Except.ok subsC1 ∧
    (process_warrant envC1 "VARA").toOption.map
        (fun r => (r.deve_processar, r.confidence_geral)) =
      some (true,
        (((analyze_input_structure "VARA").confidence_score +
            (if (extract_all_investigated_parties
                (oficio_content_of envC1 "VARA")).investigados ≠ [] then 1 else 0) +
            (if subsC1.subsidios_solicitados ≠ [] then 1 else 1/2) +
            minSimOr subsC1.subsidios_solicitados (1/2)) / 4) *
          (if (extract_all_investigated_parties
              (oficio_content_of envC1 "VARA")).investigados = [] then 1/2 else 1) *
          (if subsC1.subsidios_solicitados = [] then 1/2 else 1) *
          (if (analyze_input_structure "VARA").tipo_oficio = "complemento"
            then 9/10 else 1)) :=
  ⟨by decide, by decide, by decide, rfl,
   C1_confidence_routing envC1 "VARA" subsC1 (by decide) (by decide) (by decide) rfl⟩

/- ### C7: TF-IDF self-match ranking -/

theorem idf_catC7 (g : List Char) (hg : g ∈ vocabOf catC7) : idf catC7 g = 1 := by
  have hdf : df_gram catC7 g = 2 := by revert hg; revert g; decide
  rw [idf, hdf, show n_docs catC7 = 2 from rfl]
  norm_num

theorem tfidf_extrato_vocab (g : List Char) (hg : g ∈ vocabOf catC7) :
    tfidfW catC7 "extrato" g = (countGram g "extrato" : ℝ) := by
  rw [tfidfW, idf_catC7 g hg, mul_one]

theorem dot_extrato_pos :
    0 < dotVocab (vocabOf catC7) (tfidfW catC7 "extrato") (tfidfW catC7 "extrato") := by
  rw [dotVocab]
  refine List.sum_pos _ ?_ ?_
  · have hall : ∀ g ∈ vocabOf catC7, 0 < countGram g "extrato" := by decide
    intro x hx
    obtain ⟨g, hg, rfl⟩ := List.mem_map.mp hx
    rw [tfidf_extrato_vocab g hg]
    have hc : (0:ℝ) < (countGram g "extrato" : ℝ) := by exact_mod_cast hall g hg
    exact mul_pos hc hc
  · simp only [ne_eq, List.map_eq_nil_iff]
    decide

theorem cos_self_catC7 :
    cosSim (vocabOf catC7) (tfidfW catC7 "extrato") (tfidfW catC7 "extrato") = 1 := by
  rw [cosSim, Real.mul_self_sqrt (le_of_lt dot_extrato_pos)]
  exact div_self (ne_of_gt dot_extrato_pos)

theorem tfidf_catC7_doc : tfidfW catC7 "extrato " = tfidfW catC7 "extrato" := by
  funext g
  rw [tfidfW, tfidfW, countGram, countGram,
    show analyzeCharWb "extrato " = analyzeCharWb "extrato" from by decide]

theorem matchScore_catC7 (r : CatalogRow) (hr : corpusText r = "extrato ") :
    matchScore catC7 "extrato" r = 1 := by
  rw [matchScore, hr, tfidf_catC7_doc]
  exact cos_self_catC7

theorem find_matches_catC7 :
    find_matches catC7 "extrato" (3/4) =
      [{ subsidio_id := "1", nome_subsidio := "extrato", similarity_score := 1 },
       { subsidio_id := "2", nome_subsidio := "extrato", similarity_score := 1 }] := by
  have h1 : matchScore catC7 "extrato"
      { subsidio_id := "1", nome := "extrato", descricao := "", exemplos := "" } = 1 :=
    matchScore_catC7 _ (by decide)
  have h2 : matchScore catC7 "extrato"
      { subsidio_id := "2", nome := "extrato", descricao := "", exemplos := "" } = 1 :=
    matchScore_catC7 _ (by decide)
  rw [find_matches]
  rw [show (catC7.map fun r =>
      (⟨r.subsidio_id, r.nome, matchScore catC7 "extrato" r⟩ : ScoredMatch)) =
    [(⟨"1", "extrato", matchScore catC7 "extrato" (⟨"1", "extrato", "", ""⟩ : CatalogRow)⟩ : ScoredMatch),
     (⟨"2", "extrato", matchScore catC7 "extrato" (⟨"2", "extrato", "", ""⟩ : CatalogRow)⟩ : ScoredMatch)] from rfl]
  rw [show (⟨"1", "extrato", "", ""⟩ : CatalogRow) = { subsidio_id := "1", nome := "extrato", descricao := "", exemplos := "" } from rfl,
    show (⟨"2", "extrato", "", ""⟩ : CatalogRow) = { subsidio_id := "2", nome := "extrato", descricao := "", exemplos := "" } from rfl]
  rw [h1, h2]
  have hp : ((3:ℝ)/4 ≤ 1) := by norm_num
  rw [List.filter_cons, List.filter_cons, List.filter_nil]
  rw [if_pos (decide_eq_true hp), if_pos (decide_eq_true hp)]
  rw [sortScoreDesc, List.foldl_cons, List.foldl_cons, List.foldl_nil]
  rw [show insertDesc (⟨"1", "extrato", (1:ℝ)⟩ : ScoredMatch) ([] : List ScoredMatch) =
    [(⟨"1", "extrato", (1:ℝ)⟩ : ScoredMatch)] from rfl]
  rw [insertDesc, if_neg (lt_irrefl (1:ℝ))]
  rfl

theorem insertDesc_perm (m : ScoredMatch) (l : List ScoredMatch) :
    List.Perm (insertDesc m l) (m :: l) := by
  induction l with
  | nil => rfl
  | cons x xs ih =>
    by_cases hlt : x.similarity_score < m.similarity_score
    · rw [insertDesc, if_pos hlt]
    · rw [insertDesc, if_neg hlt]
      exact List.Perm.trans (ih.cons x) (List.Perm.swap _ _ _)

theorem insertDesc_sorted (m : ScoredMatch) (l : List ScoredMatch)
    (h : l.Sorted (fun a b => b.similarity_score ≤ a.similarity_score)) :
    (insertDesc m l).Sorted (fun a b => b.similarity_score ≤ a.similarity_score) := by
  induction l with
  | nil => simp [insertDesc]
  | cons x xs ih =>
    rw [List.sorted_cons] at h
    obtain ⟨hx, hxs⟩ := h
    by_cases hlt : x.similarity_score < m.similarity_score
    · rw [insertDesc, if_pos hlt, List.sorted_cons]
      constructor
      · intro b hb
        rcases List.mem_cons.mp hb with hbe | hb
        · rw [hbe]; exact le_of_lt hlt
        · exact le_trans (hx b hb) (le_of_lt hlt)
      · rw [List.sorted_cons]; exact ⟨hx, hxs⟩
    · rw [insertDesc, if_neg hlt, List.sorted_cons]
      refine ⟨?_, ih hxs⟩
      intro b hb
      rcases List.mem_cons.mp ((insertDesc_perm m xs).mem_iff.mp hb) with hbe | hb2
      · rw [hbe]; exact not_lt.mp hlt
      · exact hx b hb2

theorem foldl_insertDesc_perm (l acc : List ScoredMatch) :
    List.Perm (l.foldl (fun acc m => insertDesc m acc) acc) (acc ++ l) := by
  induction l generalizing acc with
  | nil => simp
  | cons x xs ih =>
    have h1 : (x :: xs).foldl (fun acc m => insertDesc m acc) acc
        = xs.foldl (fun acc m => insertDesc m acc) (insertDesc x acc) := rfl
    rw [h1]
    refine List.Perm.trans (ih _) ?_
    refine List.Perm.trans ((insertDesc_perm x acc).append_right xs) ?_
    exact List.perm_middle.symm

theorem sortScoreDesc_perm (l : List ScoredMatch) : List.Perm (sortScoreDesc l) l := by
  simpa [sortScoreDesc] using foldl_insertDesc_perm l []

theorem foldl_insertDesc_sorted (l acc : List ScoredMatch)
    (h : acc.Sorted (fun a b => b.similarity_score ≤ a.similarity_score)) :
    (l.foldl (fun acc m => insertDesc m acc) acc).Sorted
      (fun a b => b.similarity_score ≤ a.similarity_score) := by
  induction l generalizing acc with
  | nil => exact h
  | cons x xs ih => exact ih _ (insertDesc_sorted x acc h)

theorem sortScoreDesc_sorted (l : List ScoredMatch) :
    (sortScoreDesc l).Sorted (fun a b => b.similarity_score ≤ a.similarity_score) := by
  rw [sortScoreDesc]
  exact foldl_insertDesc_sorted l [] (by simp)

/-- C7 (counterexample): the claim says that for every catalog entry E,
matching E's name against the catalog it was built from returns E as the
top-ranked candidate with score above the 0.75 acceptance threshold. With
two catalog rows that share the name "extrato" but have distinct ids "1"
and "2" (`catC7`), matching the name "extrato" of entry "2" gives both
rows cosine score exactly 1 (their tf-idf vectors coincide with the
request vector), both pass the threshold 3/4, and the stable descending
sort keeps catalog order, ranking id "1" first — so entry "2" is not the
top-ranked candidate for its own name. -/
theorem C7_counterexample :
    (catC7.map fun r => r.subsidio_id) = ["1", "2"] ∧
    corpusText (⟨"2", "extrato", "", ""⟩ : CatalogRow) = "extrato " ∧
    ((find_matches catC7 "extrato" (3/4)).map fun m => m.subsidio_id) = ["1", "2"] ∧
    ((find_matches catC7 "extrato" (3/4)).head?.map fun m => m.subsidio_id) = some "1" ∧
    ("1" : String) ≠ "2" := by
  refine ⟨by decide, by decide, ?_, ?_, by decide⟩
  · rw [find_matches_catC7]; rfl
  · rw [find_matches_catC7]; rfl

/-- C7 (amended): what `SubsidyMatcher.find_matches` does guarantee: the
returned list is sorted by descending similarity score, it is a
permutation of (exactly) the scored catalog rows whose cosine score
against the request reaches the threshold, and every returned match
scores at least the threshold. Top rank for a catalog entry matched on
its own name is NOT guaranteed (see the counterexample): an equal-scoring
earlier row wins the stable sort. -/
theorem C7_amended (catalog_df : List CatalogRow) (requested_text : String) (threshold : ℝ) :
    (find_matches catalog_df requested_text threshold).Sorted
      (fun a b => b.similarity_score ≤ a.similarity_score) ∧
    List.Perm (find_matches catalog_df requested_text threshold)
      ((catalog_df.map fun r =>
        (⟨r.subsidio_id, r.nome, matchScore catalog_df requested_text r⟩ : ScoredMatch)).filter
        fun m => threshold ≤ m.similarity_score) ∧
    ∀ m ∈ find_matches catalog_df requested_text threshold, threshold ≤ m.similarity_score := by
  refine ⟨?_, ?_, ?_⟩
  · rw [find_matches]
    exact sortScoreDesc_sorted _
  · rw [find_matches]
    exact sortScoreDesc_perm _
  · intro m hm
    rw [find_matches] at hm
    have hmem := (sortScoreDesc_perm _).mem_iff.mp hm
    exact of_decide_eq_true (List.mem_filter.mp hmem).2

/-- C7 witness: for the concrete catalog `catC7` and request "extrato"
at threshold 3/4, the scored match for entry "2" is in the returned list
and, by `C7_amended`, its score reaches the threshold. -/
theorem C7_witness :
    (⟨"2", "extrato", (1:ℝ)⟩ : ScoredMatch) ∈ find_matches catC7 "extrato" (3/4) ∧
    (3/4 : ℝ) ≤ (⟨"2", "extrato", (1:ℝ)⟩ : ScoredMatch).similarity_score := by
  have hmem : (⟨"2", "extrato", (1:ℝ)⟩ : ScoredMatch) ∈ find_matches catC7 "extrato" (3/4) := by
    rw [find_matches_catC7]
    exact List.mem_cons_of_mem _ (List.mem_singleton.mpr rfl)
  exact ⟨hmem, (C7_amended catC7 "extrato" (3/4)).2.2 _ hmem⟩
